import Mathlib

/-!
# Verification of the `ai_detective` reasoning pipeline

A shallow embedding of the three analyzers in
`src/ai_detective/backend` (`time_series_analyzer.py`, `causal_reasoner.py`,
`deep_reasoner.py`) together with proofs that settle the frozen claims.

Modelling conventions:
* Python `str` is Lean `String`; character-level work happens on `List Char`
  (both count Unicode code points, as Python `len` does).
* Python `datetime` values are modelled as `Int` seconds since 1970-01-01
  00:00:00 (proleptic Gregorian, microseconds dropped: the pipeline never
  produces sub-second values).  `timedelta` is an `Int` number of seconds.
* Python `float` is modelled as `Rat`.  Every constant appearing in the code
  is a short decimal, and all claims are qualitative (ordering, clamping,
  exact decimal constants), where the rational model and IEEE doubles agree.
* Code that can raise (`datetime(...)` construction, `.replace(...)`,
  out-of-range `timedelta`) runs in `Except String`; a `try/except` block is
  a `match` on that value.
* `re.finditer` matches are passed in as explicit data (the list of captured
  groups per pattern, in match order), constrained by hypotheses that state
  what the regular expressions guarantee about their captures (the second
  group of every causal pattern is one of the literal connective
  alternatives; every match is a non-empty substring of the text).  The
  handful of anchored `re.match` / `re.search` / `re.findall` uses inside
  `_parse_datetime` and `_determine_reference_date` are simple enough to be
  implemented directly, with Python backtracking semantics.
* Python `list.sort` (Timsort, stable) is modelled by `List.insertionSort`,
  which is also stable, so both produce the same list.
-/

/- ## Basic string utilities (Python `in`, `find`, `replace`, `strip`, `split`) -/

/-- Does the needle occur at the very start of the haystack? -/
def startsWithSeq : List Char → List Char → Bool
  | [], _ => true
  | _ :: _, [] => false
  | n :: ns, h :: hs => n == h && startsWithSeq ns hs

/-- Python `needle in hay` (contiguous subsequence; the empty needle always
matches, as in Python). -/
def hasSub (needle : List Char) : List Char → Bool
  | [] => startsWithSeq needle []
  | c :: rest => startsWithSeq needle (c :: rest) || hasSub needle rest

/-- Python `hay.find(needle)` restricted to success/failure:
`some i` is the leftmost match position, `none` means `-1`. -/
def findSub (needle : List Char) : List Char → Option Nat
  | [] => if startsWithSeq needle [] then some 0 else none
  | c :: rest =>
    if startsWithSeq needle (c :: rest) then some 0
    else (findSub needle rest).map (· + 1)

/-- Model of `strHas hay needle` is Python `needle in hay` on `String`s. -/
def strHas (hay needle : String) : Bool :=
  hasSub needle.toList hay.toList

/-- Fuel-driven worker for `removeSub` (structural recursion so that the
kernel can evaluate it). -/
def removeSubF (needle : List Char) : Nat → List Char → List Char
  | 0, l => l
  | _ + 1, [] => []
  | f + 1, c :: rest =>
    if needle ≠ [] ∧ startsWithSeq needle (c :: rest) = true then
      removeSubF needle f (rest.drop (needle.length - 1))
    else c :: removeSubF needle f rest

/-- Python `hay.replace(needle, "")` for a non-empty needle: remove all
non-overlapping occurrences, scanning left to right. -/
def removeSub (needle hay : List Char) : List Char :=
  removeSubF needle (hay.length + 1) hay

/-- Fuel-driven worker for `removeAlts`. -/
def removeAltsF (alts : List (List Char)) : Nat → List Char → List Char
  | 0, l => l
  | _ + 1, [] => []
  | f + 1, c :: rest =>
    match alts.find? (fun a => decide (a ≠ []) && startsWithSeq a (c :: rest)) with
    | some a => removeAltsF alts f (rest.drop (a.length - 1))
    | none => c :: removeAltsF alts f rest

/-- Python `re.sub("(w1|w2|...)", "", hay)` for literal alternatives: at each
position try the alternatives in order, drop the first one that matches, else
keep the character. -/
def removeAlts (alts : List (List Char)) (hay : List Char) : List Char :=
  removeAltsF alts (hay.length + 1) hay

/-- The whitespace characters stripped by Python `str.strip()` that can occur
in this code base (ASCII whitespace plus the ideographic space). -/
def isWsChar (c : Char) : Bool :=
  c == ' ' || c == '\t' || c == '\n' || c == '\r' ||
  c == '\x0b' || c == '\x0c' || c == '　'

/-- Python `str.strip()`. -/
def stripWs (l : List Char) : List Char :=
  ((l.dropWhile isWsChar).reverse.dropWhile isWsChar).reverse

/-- Python `str.strip()` on `String`. -/
def pyStrip (s : String) : String :=
  String.mk (stripWs s.toList)

/-- Python `re.split("[c...]", text)` / `text.split(c)`: split at every
separator character, keeping empty parts. -/
def splitChars (seps : List Char) : List Char → List (List Char)
  | [] => [[]]
  | c :: rest =>
    match splitChars seps rest with
    | [] => [[]]
    | p :: ps => if seps.contains c then [] :: p :: ps else (c :: p) :: ps

/-- ASCII lowercase, the only case folding Python `str.lower()` performs on
the characters this code base feeds it. -/
def lowerChar (c : Char) : Char :=
  if 'A' ≤ c ∧ c ≤ 'Z' then Char.ofNat (c.toNat + 32) else c

/-- Python `str.lower()` (ASCII fragment). -/
def pyLower (s : String) : String :=
  String.mk (s.toList.map lowerChar)

/- ## Digit helpers (`re.findall`, numeric groups) -/

def isDigitCh (c : Char) : Bool := '0' ≤ c && c ≤ '9'

/-- Numeric value of a digit string (`int(...)` on a `\d+` capture). -/
def digitsToNat (l : List Char) : Nat :=
  l.foldl (fun acc c => acc * 10 + (c.toNat - '0'.toNat)) 0

/-- Fuel-driven worker for `findAllNums`. -/
def findAllNumsF : Nat → List Char → List (List Char)
  | 0, _ => []
  | _ + 1, [] => []
  | f + 1, c :: rest =>
    if isDigitCh c then
      let run := (c :: rest).takeWhile isDigitCh
      run :: findAllNumsF f ((c :: rest).drop run.length)
    else findAllNumsF f rest

/-- Python `re.findall(r"\d+", text)`: the maximal digit runs, left to
right. -/
def findAllNums (l : List Char) : List (List Char) :=
  findAllNumsF (l.length + 1) l

/-- Model of `re.search(r"(\d+)分", text)`, returning the numeric value of the
captured group of the leftmost match. -/
def searchNumFen : List Char → Option Nat
  | [] => none
  | c :: rest =>
    if isDigitCh c then
      let run := (c :: rest).takeWhile isDigitCh
      if ((c :: rest).drop run.length).headD ' ' == '分' then some (digitsToNat run)
      else searchNumFen rest
    else searchNumFen rest

/- ## Proleptic-Gregorian calendar (the `datetime` model) -/

def isLeapYear (y : Int) : Bool :=
  y % 4 == 0 && (y % 100 != 0 || y % 400 == 0)

def daysInMonth (y : Int) (m : Nat) : Nat :=
  if m == 2 then (if isLeapYear y then 29 else 28)
  else if m == 4 || m == 6 || m == 9 || m == 11 then 30
  else 31

/-- Days from 1970-01-01 to the civil date y-m-d (Howard Hinnant's
`days_from_civil`). -/
def daysFromCivil (y : Int) (m d : Nat) : Int :=
  let yA : Int := if m ≤ 2 then y - 1 else y
  let era : Int := Int.fdiv yA 400
  let yoe : Int := yA - era * 400
  let mp : Int := if m ≤ 2 then (m : Int) + 9 else (m : Int) - 3
  let doy : Int := (153 * mp + 2) / 5 + (d : Int) - 1
  let doe : Int := yoe * 365 + yoe / 4 - yoe / 100 + doy
  era * 146097 + doe - 719468

/-- Civil date (y, m, d) of a day count from 1970-01-01 (Howard Hinnant's
`civil_from_days`). -/
def civilFromDays (z : Int) : Int × Nat × Nat :=
  let zA := z + 719468
  let era := Int.fdiv zA 146097
  let doe := (zA - era * 146097).toNat
  let yoe := (doe - doe / 1460 + doe / 36524 - doe / 146096) / 365
  let doy := doe - (365 * yoe + yoe / 4 - yoe / 100)
  let mp := (5 * doy + 2) / 153
  let d := doy - (153 * mp + 2) / 5 + 1
  let m := if mp < 10 then mp + 3 else mp - 9
  (((yoe : Int) + era * 400) + (if m ≤ 2 then 1 else 0), m, d)

/-- Model of `datetime.min` as epoch seconds (Python year 1). -/
def pyDatetimeMin : Int := daysFromCivil 1 1 1 * 86400

/-- Model of `datetime.max` as epoch seconds (Python year 9999, to second
granularity). -/
def pyDatetimeMax : Int := daysFromCivil 9999 12 31 * 86400 + 86399

/-- Model of `datetime(year, month, day, hour, minute)`: validates exactly the ranges
Python enforces and raises (returns `.error`) otherwise. -/
def mkDatetimeE (y : Int) (m d h mi : Nat) : Except String Int :=
  if y < 1 ∨ 9999 < y then .error "year out of range"
  else if m < 1 ∨ 12 < m then .error "month out of range"
  else if d < 1 ∨ daysInMonth y m < d then .error "day out of range"
  else if 23 < h then .error "hour out of range"
  else if 59 < mi then .error "minute out of range"
  else .ok (daysFromCivil y m d * 86400 + (h : Int) * 3600 + (mi : Int) * 60)

/-- Model of `dt.replace(hour=0, minute=0, second=0, microsecond=0)`: midnight of the
same civil day. -/
def midnightOf (t : Int) : Int := Int.fdiv t 86400 * 86400

/-- Model of `dt.replace(hour=h, minute=mi, second=0, microsecond=0)`: raises when the
replacement fields are out of range, exactly as Python does. -/
def replaceHM (t : Int) (h mi : Nat) : Except String Int :=
  if 23 < h then .error "hour out of range"
  else if 59 < mi then .error "minute out of range"
  else .ok (midnightOf t + (h : Int) * 3600 + (mi : Int) * 60)

/-- Model of `.year` of a datetime. -/
def yearOfEpoch (t : Int) : Int := (civilFromDays (Int.fdiv t 86400)).1

/-- Model of `timedelta(...)` with the given total seconds: raises `OverflowError`
when the normalised day count leaves Python's `timedelta` range. -/
def mkTimedelta (seconds : Int) : Except String Int :=
  if 999999999 < Int.fdiv seconds 86400 ∨ Int.fdiv seconds 86400 < -999999999 then
    .error "timedelta overflow"
  else .ok seconds

/-- Model of `datetime - timedelta`: raises `OverflowError` when the result leaves the
`datetime` range. -/
def dtSub (t delta : Int) : Except String Int :=
  let r := t - delta
  if r < pyDatetimeMin ∨ pyDatetimeMax < r then .error "date value out of range"
  else .ok r

/-- Zero-pad to two digits (`%m`, `%d`, `%H`, `%M`, `%S`). -/
def pad2 (n : Nat) : String :=
  if n < 10 then "0" ++ toString n else toString n

/-- Model of `dt.strftime("%Y-%m-%d %H:%M")`. -/
def fmtYMDHM (t : Int) : String :=
  let c := civilFromDays (Int.fdiv t 86400)
  let secs := (t - Int.fdiv t 86400 * 86400).toNat
  toString c.1 ++ "-" ++ pad2 c.2.1 ++ "-" ++ pad2 c.2.2 ++ " " ++
    pad2 (secs / 3600) ++ ":" ++ pad2 (secs % 3600 / 60)

/-- Model of `dt.strftime("%H:%M")`. -/
def fmtHM (t : Int) : String :=
  let secs := (t - Int.fdiv t 86400 * 86400).toNat
  pad2 (secs / 3600) ++ ":" ++ pad2 (secs % 3600 / 60)

/-- Model of `str(timedelta)`. -/
def fmtTimedelta (secs : Int) : String :=
  let days := Int.fdiv secs 86400
  let r := (secs - days * 86400).toNat
  let core := toString (r / 3600) ++ ":" ++ pad2 (r % 3600 / 60) ++ ":" ++ pad2 (r % 60)
  if days == 0 then core
  else
    toString days ++ (if days == 1 ∨ days == -1 then " day, " else " days, ") ++ core

/- ## Anchored pattern matchers used inside `_parse_datetime` and
`_determine_reference_date` (hand translations of the concrete regular
expressions, with Python backtracking semantics) -/

/-- Split off the maximal digit run at the front. -/
def digitRunSplit (l : List Char) : List Char × List Char :=
  (l.takeWhile isDigitCh, l.dropWhile isDigitCh)

/-- Model of `re.match(r"(\d{4})年(\d{1,2})月(\d{1,2})日", text)` (also the Boolean
test `re.match(r"\d{4}年\d{1,2}月\d{1,2}日", text)`): a `\d{4}` group matches
exactly four digits followed by the literal, and a `\d{1,2}` group followed by
a non-digit literal matches precisely a maximal run of one or two digits. -/
def prefixYMDcn (l : List Char) : Option (Nat × Nat × Nat) :=
  let p1 := digitRunSplit l
  if p1.1.length == 4 then
    match p1.2 with
    | a :: t2 =>
      if a == '年' then
        let p2 := digitRunSplit t2
        if p2.1.length == 1 || p2.1.length == 2 then
          match p2.2 with
          | b :: t4 =>
            if b == '月' then
              let p3 := digitRunSplit t4
              if p3.1.length == 1 || p3.1.length == 2 then
                match p3.2 with
                | c :: _ =>
                  if c == '日' then some (digitsToNat p1.1, digitsToNat p2.1, digitsToNat p3.1)
                  else none
                | [] => none
              else none
            else none
          | [] => none
        else none
      else none
    | [] => none
  else none

/-- Model of `re.match(r"(\d{4})-(\d{1,2})-(\d{1,2})", text)`: the final group has no
trailing literal, so it greedily takes up to two digits of the run. -/
def prefixYMDdash (l : List Char) : Option (Nat × Nat × Nat) :=
  let p1 := digitRunSplit l
  if p1.1.length == 4 then
    match p1.2 with
    | a :: t2 =>
      if a == '-' then
        let p2 := digitRunSplit t2
        if p2.1.length == 1 || p2.1.length == 2 then
          match p2.2 with
          | b :: t4 =>
            if b == '-' then
              let p3 := digitRunSplit t4
              if p3.1.length ≥ 1 then
                some (digitsToNat p1.1, digitsToNat p2.1, digitsToNat (p3.1.take 2))
              else none
            else none
          | [] => none
        else none
      else none
    | [] => none
  else none

/-- Model of `re.search` for `prefixYMDcn`: leftmost matching start position. -/
def searchYMDcn : List Char → Option (Nat × Nat × Nat)
  | [] => none
  | c :: rest =>
    match prefixYMDcn (c :: rest) with
    | some v => some v
    | none => searchYMDcn rest

/-- Model of `re.search` for `prefixYMDdash`. -/
def searchYMDdash : List Char → Option (Nat × Nat × Nat)
  | [] => none
  | c :: rest =>
    match prefixYMDdash (c :: rest) with
    | some v => some v
    | none => searchYMDdash rest

/-- Model of `re.match(r"\d{1,2}月\d{1,2}日", text)` as a Boolean. -/
def matchMDcn (l : List Char) : Bool :=
  let p1 := digitRunSplit l
  if p1.1.length == 1 || p1.1.length == 2 then
    match p1.2 with
    | a :: t2 =>
      if a == '月' then
        let p2 := digitRunSplit t2
        if p2.1.length == 1 || p2.1.length == 2 then
          match p2.2 with
          | b :: _ => b == '日'
          | [] => false
        else false
      else false
    | [] => false
  else false

/-- Model of `re.match(r"\d+<suffix>", text)` for a literal suffix (`天前`, `小时前`,
`分钟前`): a maximal digit run followed by the suffix. -/
def matchNumThen (suffix : List String) (l : List Char) : Bool :=
  let p := digitRunSplit l
  decide (p.1 ≠ []) && suffix.any (fun s => startsWithSeq s.toList p.2)

/-- Model of `re.match(r"[早中晚]上?\d+[点时]", text)`.  If the optional `上` is present
but not followed by a digit the match fails outright: backtracking cannot help
because `上` itself is not a digit. -/
def matchColloquialTime (l : List Char) : Bool :=
  match l with
  | [] => false
  | c :: rest =>
    (c == '早' || c == '中' || c == '晚') &&
      (let body := match rest with
        | x :: xs => if x == '上' then xs else rest
        | [] => rest
      let p := digitRunSplit body
      decide (p.1 ≠ []) && (p.2.headD ' ' == '点' || p.2.headD ' ' == '时'))

/-- Model of `re.match(r"\d+点\d?分?", text)`: everything after `点` is optional. -/
def matchDianTime (l : List Char) : Bool :=
  let p := digitRunSplit l
  decide (p.1 ≠ []) && p.2.headD ' ' == '点'

/- ## Time-series analyzer: data model -/

inductive TimePrecision where
  | YEAR | MONTH | DAY | HOUR | MINUTE | SECOND
  deriving Repr, DecidableEq

def TimePrecision.value : TimePrecision → String
  | .YEAR => "年"
  | .MONTH => "月"
  | .DAY => "日"
  | .HOUR => "时"
  | .MINUTE => "分"
  | .SECOND => "秒"

structure Timestamp where
  id : String
  text : String
  datetime : Option Int
  precision : TimePrecision
  event : String
  confidence : Rat := 1
  is_estimate : Bool := false
  deriving Repr, DecidableEq

structure TimeInterval where
  start : Timestamp
  stop : Timestamp          -- the source names this field `end`, a Lean keyword
  duration : Option Int := none
  description : String := ""
  deriving Repr, DecidableEq

structure Conflict where
  id : String
  type : String
  description : String
  timestamps : List Timestamp
  severity : String
  deriving Repr, DecidableEq

structure Timeline where
  id : String
  timestamps : List Timestamp := []
  intervals : List TimeInterval := []
  conflicts : List Conflict := []
  deriving Repr, DecidableEq

/-- Sort key of `Timeline.add_timestamp`: `t.datetime or datetime.max`
(`datetime` objects are never falsy, so `or` picks the datetime whenever it
is present; unresolved entries sort last). -/
def dtKey (t : Timestamp) : Int := t.datetime.getD pyDatetimeMax

/-- The comparison used by the Python `list.sort(key=...)` calls. -/
def tsLe (a b : Timestamp) : Prop := dtKey a ≤ dtKey b

instance : DecidableRel tsLe := fun a b => inferInstanceAs (Decidable (dtKey a ≤ dtKey b))

instance : IsTotal Timestamp tsLe := ⟨fun a b => le_total (dtKey a) (dtKey b)⟩

instance : IsTrans Timestamp tsLe := ⟨fun _ _ _ hab hbc => le_trans hab hbc⟩

/-- Model of `Timeline.add_timestamp`: append, then re-sort (Timsort is stable, and so
is `insertionSort`). -/
def Timeline.add_timestamp (tl : Timeline) (t : Timestamp) : Timeline :=
  { tl with timestamps := List.insertionSort tsLe (tl.timestamps ++ [t]) }

/- ## Time-series analyzer: parsing -/

/-- Model of `TimeSeriesAnalyzer._determine_reference_date` (the `event_context`
parameter is accepted but never read, as in the source).  The `datetime`
construction is NOT wrapped in any `try`, so an invalid matched date (for
example month 13) raises out of the whole extraction. -/
def determine_reference_date (text : String) (eventContext : String) (now : Int) :
    Except String Int :=
  let _ := eventContext
  match searchYMDcn text.toList with
  | some v => mkDatetimeE v.1 v.2.1 v.2.2 0 0
  | none =>
    match searchYMDdash text.toList with
    | some v => mkDatetimeE v.1 v.2.1 v.2.2 0 0
    | none => .ok now

/-- Body of `TimeSeriesAnalyzer._parse_datetime`, before the enclosing
`try/except`.  Falls off the end of the function (`.ok none`) when no branch
fires or when a fired branch does not return. -/
def parse_datetime_body (text : String) (reference : Int) : Except String (Option Int) :=
  let l := text.toList
  let parts := (findAllNums l).map digitsToNat
  if (prefixYMDcn l).isSome then
    if parts.length ≥ 3 then
      let hm : Nat × Nat :=
        if parts.length ≥ 5 then (parts.getD 3 0, parts.getD 4 0)
        else if parts.length == 4 then (parts.getD 3 0, 0)
        else (0, 0)
      (mkDatetimeE (parts.getD 0 0) (parts.getD 1 0) (parts.getD 2 0) hm.1 hm.2).map some
    else .ok none
  else if matchMDcn l then
    if parts.length ≥ 2 then
      let hm : Nat × Nat :=
        if parts.length ≥ 4 then (parts.getD 2 0, parts.getD 3 0)
        else if parts.length == 3 then (parts.getD 2 0, 0)
        else (0, 0)
      (mkDatetimeE (yearOfEpoch reference) (parts.getD 0 0) (parts.getD 1 0) hm.1 hm.2).map some
    else .ok none
  else if strHas text "今天" || strHas text "今日" then
    .ok (some (midnightOf reference))
  else if strHas text "昨天" || strHas text "昨日" then
    (dtSub reference 86400).map (fun r => some (midnightOf r))
  else if strHas text "前天" then
    (dtSub reference (2 * 86400)).map (fun r => some (midnightOf r))
  else if strHas text "大前天" then
    (dtSub reference (3 * 86400)).map (fun r => some (midnightOf r))
  else if matchNumThen ["天前"] l then
    match parts with
    | [] => .error "list index out of range"
    | n :: _ => do
      let td ← mkTimedelta ((n : Int) * 86400)
      let r ← dtSub reference td
      pure (some r)
  else if matchNumThen ["小时前"] l then
    match parts with
    | [] => .error "list index out of range"
    | n :: _ => do
      let td ← mkTimedelta ((n : Int) * 3600)
      let r ← dtSub reference td
      pure (some r)
  else if matchNumThen ["分钟前"] l then
    match parts with
    | [] => .error "list index out of range"
    | n :: _ => do
      let td ← mkTimedelta ((n : Int) * 60)
      let r ← dtSub reference td
      pure (some r)
  else if matchColloquialTime l then
    match parts with
    | [] => .error "list index out of range"
    | h0 :: _ =>
      let hour :=
        if strHas text "下午" || strHas text "晚上" then (if h0 != 12 then h0 + 12 else h0)
        else if strHas text "中午" then 12
        else h0
      let minute :=
        match searchNumFen l with
        | some m => m
        | none => if strHas text "半" then 30 else 0
      (replaceHM reference hour minute).map some
  else if matchDianTime l then
    match parts with
    | [] => .error "list index out of range"
    | h0 :: _ =>
      let minute :=
        match searchNumFen l with
        | some m => m
        | none => if strHas text "半" then 30 else 0
      let hour := if h0 < 12 then h0 + 12 else h0
      (replaceHM reference hour minute).map some
  else .ok none

/-- Model of `TimeSeriesAnalyzer._parse_datetime`: the whole body sits in a
`try: ... except Exception: return None`.  The `precision` argument is
accepted but never read, as in the source. -/
def parse_datetime (text : String) (reference : Int) (precision : TimePrecision) :
    Option Int :=
  let _ := precision
  match parse_datetime_body text reference with
  | .ok v => v
  | .error _ => none

/- ## Time-series analyzer: extraction -/

/-- The precision tags of the 23 extraction patterns, in table order.  The
`上周` entry falls back to `DAY` because `TimePrecision` has no `WEEK`
member (the source checks `hasattr` and picks `DAY`). -/
def timePatternPrecisions : List TimePrecision :=
  [.MINUTE, .MINUTE, .DAY,
   .MINUTE, .MINUTE, .DAY,
   .DAY, .DAY, .DAY, .DAY, .DAY, .HOUR, .MINUTE, .DAY, .DAY, .MONTH, .YEAR,
   .MINUTE, .MINUTE, .MINUTE, .MINUTE, .MINUTE, .MINUTE]

/-- Model of `TimeSeriesAnalyzer._extract_event_context`: ±50 characters around the
leftmost occurrence of the matched time text, with every occurrence of the
time text removed and whitespace stripped. -/
def extract_event_context (timeText fullText : String) : String :=
  let full := fullText.toList
  match findSub timeText.toList full with
  | none => ""
  | some idx =>
    let start := idx - 50
    let stop := min full.length (idx + timeText.toList.length + 50)
    let context := stripWs ((full.drop start).take (stop - start))
    String.mk (stripWs (removeSub timeText.toList context))

/-- Keys of a Python dict in insertion order (first occurrence wins). -/
def firstOccurrenceKeys (l : List String) : List String :=
  l.foldl (fun acc k => if acc.contains k then acc else acc ++ [k]) []

/-- Python `max(group, key=lambda x: x.confidence)`: the first element with
maximal confidence (replace only on strictly greater). -/
def maxByConfidence : Timestamp → List Timestamp → Timestamp
  | best, [] => best
  | best, t :: ts =>
    if best.confidence < t.confidence then maxByConfidence t ts
    else maxByConfidence best ts

/-- Model of `TimeSeriesAnalyzer._deduplicate_timestamps`: group by raw matched text
(dict insertion order) and keep the highest-confidence member of each
group. -/
def dedupTimestamps (l : List Timestamp) : List Timestamp :=
  (firstOccurrenceKeys (l.map (·.text))).filterMap (fun k =>
    match l.filter (fun t => t.text == k) with
    | [] => none
    | t :: ts => some (maxByConfidence t ts))

/-- The per-match body of the `extract_timestamps` loop: parse the matched
text, build the candidate `Timestamp`, bump the running id counter. -/
def tsStepOne (text : String) (reference : Int) (precision : TimePrecision)
    (a : List Timestamp × Nat) (matchedText : String) : List Timestamp × Nat :=
  let dt := parse_datetime matchedText reference precision
  let ts : Timestamp :=
    { id := "timestamp_" ++ toString a.2
      text := matchedText
      datetime := dt
      precision := precision
      event := extract_event_context matchedText text
      confidence := if dt.isSome then 0.9 else 0.7
      is_estimate := !dt.isSome }
  (a.1 ++ [ts], a.2 + 1)

/-- One pattern's worth of `extract_timestamps`: fold `tsStepOne` over the
pattern's matched texts. -/
def tsStepPattern (text : String) (reference : Int) (acc : List Timestamp × Nat)
    (pm : TimePrecision × List String) : List Timestamp × Nat :=
  pm.2.foldl (tsStepOne text reference pm.1) acc

/-- Model of `TimeSeriesAnalyzer.extract_timestamps`.  The `re.finditer` results are
supplied as `tm`: for each pattern (in table order) the list of matched texts
(`match.group(0)`), in match order.  Theorems constrain `tm` by what the
regular expressions guarantee: every matched text is a non-empty substring of
`text`. -/
def extract_timestamps (tm : List (List String)) (text : String)
    (eventContext : String) (now : Int) : Except String (List Timestamp) := do
  let reference ← determine_reference_date text eventContext now
  let folded := (timePatternPrecisions.zip tm).foldl (tsStepPattern text reference) ([], 1)
  pure (dedupTimestamps folded.1)

/- ## Time-series analyzer: timeline -/

/-- One iteration of the interval loop of `build_timeline`: consecutive
timestamps with resolved datetimes become an interval carrying their
difference. -/
def intervalOfPair (p : Timestamp × Timestamp) : Option TimeInterval :=
  match p.1.datetime, p.2.datetime with
  | some a, some b =>
    some { start := p.1, stop := p.2, duration := some (b - a),
           description := p.1.event ++ " → " ++ p.2.event }
  | _, _ => none

/-- Model of `TimeSeriesAnalyzer.build_timeline`: keep resolved timestamps, sort them,
feed them through `Timeline.add_timestamp`, then compute consecutive
intervals.  (The initial `valid_timestamps.sort(key=lambda t: t.datetime)`
only ever sees resolved timestamps, where `tsLe` coincides with comparing the
datetimes.) -/
def build_timeline (timestamps : List Timestamp) : Timeline :=
  let valid := timestamps.filter (fun t => t.datetime.isSome)
  let sortedValid := List.insertionSort tsLe valid
  let tl1 := sortedValid.foldl Timeline.add_timestamp { id := "timeline_1" }
  { tl1 with intervals := (tl1.timestamps.zip tl1.timestamps.tail).filterMap intervalOfPair }

/- ## Time-series analyzer: conflict detection -/

/-- Defined (but never read) alongside `afterKeywords` in the source. -/
def beforeKeywords : List String := ["之前", "前", "先", "首先", "第一"]

/-- The after-class cues of `_has_logical_order_conflict` (the source lists
`后` twice). -/
def afterKeywords : List String := ["之后", "后", "后", "然后", "接着", "第二"]

/-- Model of `TimeSeriesAnalyzer._has_logical_order_conflict`, specialised to the
guarded case where both datetimes are present. -/
def has_logical_order_conflict (ts1 _ts2 : Timestamp) (d1 d2 : Int) : Bool :=
  afterKeywords.any (fun kw => strHas ts1.event kw && decide (d1 < d2))

/-- Model of `TimeSeriesAnalyzer._should_be_continuous`. -/
def should_be_continuous (iv : TimeInterval) : Bool :=
  ["后", "立即", "马上", "随即", "接着"].any (fun kw => strHas (pyLower iv.description) kw)

/-- Model of `TimeSeriesAnalyzer._should_have_gap`. -/
def should_have_gap (iv : TimeInterval) : Bool :=
  ["后", "一段时间", "过了一会", "然后"].any (fun kw => strHas (pyLower iv.description) kw)

/-- Model of `str(datetime)` (`%Y-%m-%d %H:%M:%S`), used in conflict descriptions. -/
def fmtPyDatetime (t : Int) : String :=
  let c := civilFromDays (Int.fdiv t 86400)
  let secs := (t - Int.fdiv t 86400 * 86400).toNat
  toString c.1 ++ "-" ++ pad2 c.2.1 ++ "-" ++ pad2 c.2.2 ++ " " ++
    pad2 (secs / 3600) ++ ":" ++ pad2 (secs % 3600 / 60) ++ ":" ++ pad2 (secs % 60)

/-- All ordered pairs (i < j) of a list, in the order of the nested loops. -/
def ordPairs : List α → List (α × α)
  | [] => []
  | x :: xs => xs.map (fun y => (x, y)) ++ ordPairs xs

/-- Model of `TimeSeriesAnalyzer._detect_precision_conflicts`: tally the precision
tags in insertion order and emit a single note when more than one distinct
tier is present. -/
def detect_precision_conflicts (ts : List Timestamp) : List String :=
  let pc := ts.foldl (fun (acc : List (String × Nat)) t =>
    let k := t.precision.value
    if acc.any (fun p => p.1 == k) then
      acc.map (fun p => if p.1 == k then (p.1, p.2 + 1) else p)
    else acc ++ [(k, 1)]) []
  if 1 < pc.length then
    ["时间精度不一致: " ++ String.intercalate ", " (pc.map (fun p => p.1 ++ ":" ++ toString p.2))]
  else []

/-- Model of `TimeSeriesAnalyzer.detect_time_conflicts` (returns the conflict list;
the caller attaches it to the timeline, modelling the mutation). -/
def detect_time_conflicts (tl : Timeline) : List Conflict :=
  let ordStep := fun (acc : List Conflict × Nat) (p : Timestamp × Timestamp) =>
    match p.1.datetime, p.2.datetime with
    | some d1, some d2 =>
      if has_logical_order_conflict p.1 p.2 d1 d2 then
        let c : Conflict :=
          { id := "conflict_" ++ toString acc.2
            type := "order"
            description := "时间顺序矛盾: " ++ p.1.event ++ " (" ++ p.1.text ++ ") 发生于 " ++
              fmtPyDatetime d1 ++ ", 但应在 " ++ p.2.event ++ " (" ++ p.2.text ++ ") (" ++
              fmtPyDatetime d2 ++ ") 之后"
            timestamps := [p.1, p.2]
            severity := "high" }
        (acc.1 ++ [c], acc.2 + 1)
      else acc
    | _, _ => acc
  let afterOrd := (ordPairs tl.timestamps).foldl ordStep ([], 1)
  let durStep := fun (acc : List Conflict × Nat) (iv : TimeInterval) =>
    match iv.duration with
    | some d =>
      if d == 0 then acc   -- `if interval.duration:` - a zero timedelta is falsy
      else
        let acc1 :=
          if 24 * 3600 < d ∧ should_be_continuous iv then
            let c : Conflict :=
              { id := "conflict_" ++ toString acc.2
                type := "duration"
                description := "时间间隔异常: " ++ iv.description ++ " 间隔 " ++
                  fmtTimedelta d ++ ", 可能存在问题"
                timestamps := [iv.start, iv.stop]
                severity := "medium" }
            (acc.1 ++ [c], acc.2 + 1)
          else acc
        if d < 60 ∧ should_have_gap iv then
          let c : Conflict :=
            { id := "conflict_" ++ toString acc1.2
              type := "duration"
              description := "时间间隔过短: " ++ iv.description ++ " 间隔仅 " ++
                fmtTimedelta d ++ ", 可能不足以完成"
              timestamps := [iv.start, iv.stop]
              severity := "low" }
          (acc1.1 ++ [c], acc1.2 + 1)
        else acc1
    | none => acc
  let afterDur := tl.intervals.foldl durStep afterOrd
  let precStep := fun (acc : List Conflict × Nat) (msg : String) =>
    let c : Conflict :=
      { id := "conflict_" ++ toString acc.2
        type := "precision"
        description := msg
        timestamps := []
        severity := "low" }
    (acc.1 ++ [c], acc.2 + 1)
  ((detect_precision_conflicts tl.timestamps).foldl precStep afterDur).1

/- ## Time-series analyzer: logic analysis -/

structure TimelineSummary where
  total_timestamps : Nat
  time_range : String
  total_duration : String
  deriving Repr, DecidableEq

structure TimePatternInterval where
  start : Option String
  stop : Option String
  duration_minutes : Rat
  description : String
  deriving Repr, DecidableEq

structure TimePatterns where
  time_distribution : List String := []
  time_clustering : List String := []
  time_intervals : List TimePatternInterval := []
  deriving Repr, DecidableEq

structure TimeGapEntry where
  start : Option String
  stop : Option String
  duration_hours : Rat
  description : String
  note : String
  deriving Repr, DecidableEq

structure CriticalTimestampEntry where
  time : String
  event : String
  precisionValue : String
  reason : String
  original_text : String
  deriving Repr, DecidableEq

structure LogicAnalysis where
  logic_valid : Bool
  logic_issues : List String
  time_sequence : String
  deriving Repr, DecidableEq

structure TimeLogicAnalysis where
  timeline_summary : TimelineSummary
  time_patterns : TimePatterns
  time_gaps : List TimeGapEntry
  critical_timestamps : List CriticalTimestampEntry
  time_conflicts : List Conflict
  logic_analysis : LogicAnalysis
  recommendations : List String
  deriving Repr, DecidableEq

/-- Python `min(valid, key=lambda x: x.datetime)` (first minimum). -/
def minByDt : Timestamp → List Timestamp → Timestamp
  | best, [] => best
  | best, t :: ts => if dtKey t < dtKey best then minByDt t ts else minByDt best ts

/-- Python `max(valid, key=lambda x: x.datetime)` (first maximum). -/
def maxByDt : Timestamp → List Timestamp → Timestamp
  | best, [] => best
  | best, t :: ts => if dtKey best < dtKey t then maxByDt t ts else maxByDt best ts

/-- Model of `TimeSeriesAnalyzer._get_time_range`. -/
def get_time_range (tl : Timeline) : String :=
  if tl.timestamps.isEmpty then "无时间信息"
  else
    match tl.timestamps.filter (fun t => t.datetime.isSome) with
    | [] => "无有效时间信息"
    | t :: ts =>
      fmtYMDHM (dtKey (minByDt t ts)) ++ " → " ++ fmtYMDHM (dtKey (maxByDt t ts))

/-- Model of `TimeSeriesAnalyzer._calculate_total_duration`. -/
def calculate_total_duration (tl : Timeline) : String :=
  match tl.timestamps.filter (fun t => t.datetime.isSome) with
  | t :: t2 :: ts =>
    let a := dtKey (minByDt t (t2 :: ts))
    let b := dtKey (maxByDt t (t2 :: ts))
    let duration := b - a
    let days := Int.fdiv duration 86400
    let secs := (duration - days * 86400).toNat
    let hours := secs / 3600
    let minutes := secs % 3600 / 60
    if 0 < days then toString days ++ "天" ++ toString hours ++ "小时"
    else if 0 < hours then toString hours ++ "小时" ++ toString minutes ++ "分钟"
    else toString minutes ++ "分钟"
  | _ => "无法计算"

/-- Model of `TimeSeriesAnalyzer._analyze_time_patterns`. -/
def analyze_time_patterns (tl : Timeline) : TimePatterns :=
  if 2 ≤ tl.timestamps.length then
    { time_intervals := tl.intervals.filterMap (fun iv =>
        match iv.duration with
        | some d =>
          if d == 0 then none   -- `if interval.duration:` again
          else some { start := iv.start.datetime.map fmtHM,
                      stop := iv.stop.datetime.map fmtHM,
                      duration_minutes := (d : Rat) / 60,
                      description := iv.description }
        | none => none) }
  else {}

/-- Model of `TimeSeriesAnalyzer._analyze_time_gaps`. -/
def analyze_time_gaps (tl : Timeline) : List TimeGapEntry :=
  if tl.timestamps.length < 2 then []
  else
    tl.intervals.filterMap (fun iv =>
      match iv.duration with
      | some d =>
        if 3600 < d then
          some { start := iv.start.datetime.map fmtYMDHM,
                 stop := iv.stop.datetime.map fmtYMDHM,
                 duration_hours := (d : Rat) / 3600,
                 description := iv.description,
                 note := "此时间段较长,可能有其他事件未记录" }
        else none
      | none => none)

/-- The fixed allowlist of `_identify_critical_timestamps`. -/
def criticalEventKeywords : List String :=
  ["报警", "投诉", "发布", "支付", "退款", "冲突", "争执"]

/-- Model of `TimeSeriesAnalyzer._identify_critical_timestamps`. -/
def identify_critical_timestamps (tl : Timeline) : List CriticalTimestampEntry :=
  tl.timestamps.filterMap (fun ts =>
    if criticalEventKeywords.any (fun kw => strHas ts.event kw) then
      some { time := (ts.datetime.map fmtYMDHM).getD ts.text,
             event := ts.event,
             precisionValue := ts.precision.value,
             reason := "涉及关键事件",
             original_text := ts.text }
    else none)

/-- Model of `TimeSeriesAnalyzer._analyze_logic`: note that `logic_valid` flips to
`False` whenever the conflict list is non-empty, regardless of severity;
only `logic_issues` (and `time_sequence`) are restricted to
critical/high. -/
def analyze_logic_ts (tl : Timeline) : LogicAnalysis :=
  let base : LogicAnalysis := { logic_valid := true, logic_issues := [], time_sequence := "正常" }
  let withValid :=
    if tl.conflicts.isEmpty then base
    else { base with
      logic_valid := false
      logic_issues := (tl.conflicts.filter
        (fun c => c.severity == "critical" || c.severity == "high")).map (·.description) }
  if tl.conflicts.isEmpty then withValid
  else if (tl.conflicts.filter
      (fun c => c.severity == "critical" || c.severity == "high")).isEmpty then withValid
  else { withValid with time_sequence := "存在矛盾" }

/-- Model of `TimeSeriesAnalyzer._generate_recommendations`. -/
def generate_time_recommendations (tl : Timeline) : List String :=
  let lowPrecisionCount := (tl.timestamps.filter
    (fun ts => ts.precision == .YEAR || ts.precision == .MONTH)).length
  let r1 := if 0 < lowPrecisionCount then
      ["⚠️ 有 " ++ toString lowPrecisionCount ++ " 个时间点精度较低(年/月级),建议补充更精确的时间"]
    else []
  let highConflicts := tl.conflicts.filter
    (fun c => c.severity == "critical" || c.severity == "high")
  let r2 := if highConflicts.isEmpty then []
    else ["⚠️ 发现 " ++ toString highConflicts.length ++ " 个高严重性的时间冲突,需要核实"]
  let longGaps := tl.intervals.filter (fun iv =>
    match iv.duration with
    | some d => decide (d ≠ 0) && decide (3600 < d)
    | none => false)
  let r3 := if 0 < tl.intervals.length ∧ ¬ longGaps.isEmpty then
      ["ℹ️ 有 " ++ toString longGaps.length ++ " 个较长的时间间隔,确认是否有遗漏的事件"]
    else []
  let recs := r1 ++ r2 ++ r3
  if recs.isEmpty then ["✅ 时间线逻辑清晰,无明显问题"] else recs

/-- Model of `TimeSeriesAnalyzer.analyze_time_logic`. -/
def analyze_time_logic (tl : Timeline) : TimeLogicAnalysis :=
  { timeline_summary :=
      { total_timestamps := tl.timestamps.length
        time_range := get_time_range tl
        total_duration := calculate_total_duration tl }
    time_patterns := analyze_time_patterns tl
    time_gaps := analyze_time_gaps tl
    critical_timestamps := identify_critical_timestamps tl
    time_conflicts := tl.conflicts
    logic_analysis := analyze_logic_ts tl
    recommendations := generate_time_recommendations tl }

/- ## Causal reasoner: data model -/

inductive CausalType where
  | DIRECT | INDIRECT | NECESSARY | SUFFICIENT | CONTRIBUTORY
  deriving Repr, DecidableEq

def CausalType.value : CausalType → String
  | .DIRECT => "直接因果"
  | .INDIRECT => "间接因果"
  | .NECESSARY => "必要条件"
  | .SUFFICIENT => "充分条件"
  | .CONTRIBUTORY => "促成因素"

inductive CausalStrength where
  | STRONG | MODERATE | WEAK
  deriving Repr, DecidableEq

def CausalStrength.value : CausalStrength → String
  | .STRONG => "强"
  | .MODERATE => "中"
  | .WEAK => "弱"

structure CausalRelation where
  id : String
  cause : String
  effect : String
  causal_type : CausalType
  strength : CausalStrength
  confidence : Rat
  evidence : List String := []
  intermediate_factors : List String := []
  description : String := ""
  deriving Repr, DecidableEq

structure CausalChain where
  id : String
  relations : List CausalRelation := []
  root_cause : String := ""
  final_effect : String := ""
  completeness : Rat := 0
  gaps : List String := []
  deriving Repr, DecidableEq

/-- Model of `CausalChain.add_relation`. -/
def CausalChain.add_relation (c : CausalChain) (rel : CausalRelation) : CausalChain :=
  { c with
    relations := c.relations ++ [rel]
    root_cause := if c.root_cause == "" then rel.cause else c.root_cause
    final_effect := rel.effect }

structure CausalGap where
  id : String
  from_event : String
  to_event : String
  gap_type : String
  description : String
  possible_causes : List String := []
  deriving Repr, DecidableEq

structure RootCauseAnalysis where
  root_cause : String
  confidence : Rat
  reason : Option String := none
  other_possibilities : List String := []
  deriving Repr, DecidableEq

structure CausalAnalysis where
  causal_relations : List CausalRelation := []
  causal_chains : List CausalChain := []
  causal_gaps : List CausalGap := []
  key_causes : List String := []
  key_effects : List String := []
  root_cause_analysis : RootCauseAnalysis
  alternative_explanations : List String := []
  deriving Repr, DecidableEq

/- ## Causal reasoner: extraction -/

/-- The five entries of `legal_causal_patterns`: the mapped causal type, and
the literal alternatives of the pattern's SECOND captured group.  In every
pattern that group is the connective alternation itself:
`因为(.{0,100}?)(所以|因此|因而|故而)`, `由于(.{0,100}?)(导致|引起|造成)`,
`(.{0,30}?)(造成|引起|致使)(.{0,30}?)`, `(.{0,100}?)(所以|因此|因而)(.{0,100}?)`,
`(.{0,100}?)(进而|从而)(.{0,100}?)`. -/
def legalCausalPatterns : List (CausalType × List String) :=
  [(.DIRECT, ["所以", "因此", "因而", "故而"]),
   (.DIRECT, ["导致", "引起", "造成"]),
   (.DIRECT, ["造成", "引起", "致使"]),
   (.DIRECT, ["所以", "因此", "因而"]),
   (.INDIRECT, ["进而", "从而"])]

/-- The punctuation class removed by `_clean_cause_effect`. -/
def punctuationChars : List Char :=
  ['，', '。', '！', '？', '；', '：', '、', ',', ';', ':', '!', '?', '\n']

/-- The connective alternation removed by `_clean_cause_effect`, in the
source's order. -/
def cleanConnectives : List String :=
  ["因为", "由于", "所以", "因此", "因而", "导致", "引起", "造成", "使", "使得", "致使"]

/-- Model of `CausalReasoner._clean_cause_effect`: strip punctuation, then strip
connective words, then `strip()`. -/
def cleanCauseEffect (s : String) : String :=
  let noPunct := s.toList.filter (fun c => !punctuationChars.contains c)
  String.mk (stripWs (removeAlts (cleanConnectives.map String.toList) noPunct))

/-- Model of `CausalReasoner._has_implicit_causality`. -/
def has_implicit_causality (s1 s2 : String) : Bool :=
  (["先", "开始", "首先", "最初"].any (fun kw => strHas s1 kw)) &&
  (["后", "接着", "然后", "随后", "最后"].any (fun kw => strHas s2 kw))

/-- One loop iteration of `_extract_implicit_relations`: sentences `i` and
`i+1`, both at least 5 characters after stripping, related when the first
carries a start cue and the second a follow cue. -/
def implicitStep (sentences : List String) (i : Nat) : Option CausalRelation :=
  let s1 := pyStrip (sentences.getD i "")
  let s2 := pyStrip (sentences.getD (i + 1) "")
  if s1.length < 5 ∨ s2.length < 5 then none
  else if has_implicit_causality s1 s2 then
    some { id := "causal_implicit_" ++ toString i
           cause := s1
           effect := s2
           causal_type := .INDIRECT
           strength := .WEAK
           confidence := 0.6
           description := "隐式因果: " ++ s1 ++ " → " ++ s2 }
  else none

/-- Model of `CausalReasoner._extract_implicit_relations`: adjacent sentences (split
on `[。！？\n]`) where the first carries a start cue and the second a follow
cue. -/
def extract_implicit_relations (text : String) : List CausalRelation :=
  let sentences := (splitChars ['。', '！', '？', '\n'] text.toList).map
    (fun l => String.mk l)
  (List.range (sentences.length - 1)).filterMap (implicitStep sentences)

/-- One step of `_deduplicate_relations`: keep the relation unless its
(cause, effect) key was already seen. -/
def dedupStep (acc : List CausalRelation × List (String × String))
    (rel : CausalRelation) : List CausalRelation × List (String × String) :=
  if acc.2.contains (rel.cause, rel.effect) then acc
  else (acc.1 ++ [rel], acc.2 ++ [(rel.cause, rel.effect)])

/-- Model of `CausalReasoner._deduplicate_relations`: first occurrence of each
(cause, effect) pair wins. -/
def dedupRelations (relations : List CausalRelation) : List CausalRelation :=
  (relations.foldl dedupStep ([], [])).1

/-- The per-match body of the explicit-pattern loop of
`extract_causal_relations`: `groups` is the match's tuple of captured groups
(`len(groups) >= 2` guards the access), `groups[0]`/`groups[1]` become
cause/effect after stripping and cleaning, and candidates with cleaned
length ≤ 2 are discarded. -/
def explicitStepOne (ct : CausalType) (a : List CausalRelation × Nat)
    (groups : List String) : List CausalRelation × Nat :=
  if 2 ≤ groups.length then
    let cause := cleanCauseEffect (pyStrip (groups.getD 0 ""))
    let effect := cleanCauseEffect (pyStrip (groups.getD 1 ""))
    if 2 < cause.length ∧ 2 < effect.length then
      let rel : CausalRelation :=
        { id := "causal_" ++ toString a.2
          cause := cause
          effect := effect
          causal_type := ct
          strength := .MODERATE
          confidence := 0.85
          description := cause ++ " → " ++ effect }
      (a.1 ++ [rel], a.2 + 1)
    else a
  else a

/-- One pattern's worth of the explicit pass: fold `explicitStepOne` over the
pattern's matches. -/
def explicitStepPattern (acc : List CausalRelation × Nat)
    (pm : (CausalType × List String) × List (List String)) :
    List CausalRelation × Nat :=
  pm.2.foldl (explicitStepOne pm.1.1) acc

/-- The explicit-pattern pass of `extract_causal_relations`.  `cm` supplies
the `re.finditer` results: for each pattern (in table order) the list of
matches, each match being its tuple of captured groups. -/
def explicitCausalRelations (cm : List (List (List String))) : List CausalRelation :=
  ((legalCausalPatterns.zip cm).foldl explicitStepPattern ([], 1)).1

/-- Model of `CausalReasoner.extract_causal_relations`: explicit pattern matches, then
implicit adjacent-sentence relations, then global deduplication. -/
def extract_causal_relations (cm : List (List (List String))) (text : String) :
    List CausalRelation :=
  dedupRelations (explicitCausalRelations cm ++ extract_implicit_relations text)

/- ## Causal reasoner: graph and chains -/

/-- The causal graph: an insertion-ordered association list (Python dict). -/
def graphKeys (g : List (String × List String)) : List String := g.map (·.1)

def graphChildren (g : List (String × List String)) (k : String) : List String :=
  ((g.find? (fun p => p.1 == k)).map (·.2)).getD []

/-- Model of `CausalReasoner._build_causal_graph`. -/
def build_causal_graph (relations : List CausalRelation) : List (String × List String) :=
  relations.foldl (fun g rel =>
    let g1 := if (graphKeys g).contains rel.cause then g else g ++ [(rel.cause, [])]
    let g2 := if (graphKeys g1).contains rel.effect then g1 else g1 ++ [(rel.effect, [])]
    g2.map (fun p => if p.1 == rel.cause then (p.1, p.2 ++ [rel.effect]) else p))
    []

/-- The inner `for next_node in graph[start]` loop of `_trace_chain`, with the
recursive call abstracted so that both functions are structurally
recursive (and hence kernel-evaluable). -/
def traceKids (recur : String → List String → Option (List String × List String)) :
    List String → List String → List String → Option (List String × List String)
  | [], chain, visited => some (chain, visited)
  | k :: ks, chain, visited =>
    if visited.contains k then traceKids recur ks chain visited
    else
      match recur k visited with
      | none => none
      | some (sub, visited2) => traceKids recur ks (chain ++ sub) visited2

/-- Model of `CausalReasoner._trace_chain` with explicit fuel: the Python function
recurses on a shared mutable `visited` set, modelled here by threading the
visited list through.  `none` means the fuel ran out — the termination
theorem shows any fuel beyond the number of unvisited graph keys never
does. -/
def traceChainF : Nat → String → List (String × List String) → List String →
    Option (List String × List String)
  | 0, _, _, _ => none
  | f + 1, start, g, visited =>
    if visited.contains start || !(graphKeys g).contains start then some ([start], visited)
    else traceKids (fun k v => traceChainF f k g v) (graphChildren g start) [start]
      (start :: visited)

/-- Model of `CausalReasoner._trace_chain` as called by `build_causal_chain` (fresh
visited set, fuel one more than the number of graph keys, which the
termination theorem shows is always enough). -/
def trace_chain (start : String) (g : List (String × List String)) : List String :=
  ((traceChainF ((graphKeys g).length + 1) start g []).getD ([start], [])).1

/-- Model of `CausalReasoner._calculate_chain_completeness`: mean confidence. -/
def calculate_chain_completeness (c : CausalChain) : Rat :=
  if c.relations.isEmpty then 0
  else (c.relations.map (·.confidence)).sum / (c.relations.length : Rat)

/-- Model of `CausalReasoner._identify_chain_gaps`. -/
def identify_chain_gaps (c : CausalChain) : List String :=
  (c.relations.zip c.relations.tail).filterMap (fun p =>
    if p.1.effect ≠ p.2.cause then
      some ("因果链断裂: " ++ p.1.effect ++ " → " ++ p.2.cause ++ " 之间缺少中间环节")
    else none)

/-- Model of `CausalReasoner._create_causal_chain`. -/
def create_causal_chain (nodes : List String) (relations : List CausalRelation) :
    CausalChain :=
  let base : CausalChain := { id := "chain_" ++ String.mk ((nodes.headD "").toList.take 10) }
  let withRels := (nodes.zip nodes.tail).foldl (fun c p =>
    match relations.find? (fun rel => rel.cause == p.1 && rel.effect == p.2) with
    | some rel => c.add_relation rel
    | none => c) base
  let withComp := { withRels with completeness := calculate_chain_completeness withRels }
  { withComp with gaps := identify_chain_gaps withComp }

/-- Model of `CausalReasoner.build_causal_chain`. -/
def build_causal_chain (relations : List CausalRelation) : List CausalChain :=
  if relations.isEmpty then []
  else
    let graph := build_causal_graph relations
    (relations.foldl (fun (acc : List CausalChain × List String) rel =>
      if acc.2.contains rel.cause then acc
      else
        let chain := trace_chain rel.cause graph
        let chains :=
          if 1 < chain.length then acc.1 ++ [create_causal_chain chain relations]
          else acc.1
        (chains, acc.2 ++ chain)) ([], [])).1

/- ## Causal reasoner: gaps, root cause, full analysis -/

/-- Model of `CausalReasoner._infer_missing_causes`. -/
def infer_missing_causes (fromEvent toEvent : String) : List String :=
  let _ := fromEvent
  (if strHas toEvent "争执" || strHas toEvent "冲突" then
    ["情绪激动", "言语冲突", "行为不当", "误解"]
  else []) ++
  (if strHas toEvent "投诉" then
    ["权益受损", "服务不满", "期望未满足", "纠纷未解决"]
  else [])

/-- Model of `CausalReasoner._infer_missing_effects`. -/
def infer_missing_effects (fromEvent : String) : List String :=
  (if strHas fromEvent "投诉" then
    ["行政介入", "媒体曝光", "舆论发酵", "声誉受损"]
  else []) ++
  (if strHas fromEvent "冲突" then
    ["报警", "肢体冲突", "人身伤害", "财产损失"]
  else [])

/-- Model of `CausalReasoner.detect_causal_gaps`. -/
def detect_causal_gaps (c : CausalChain) : List CausalGap :=
  let fromChain := (c.gaps.foldl (fun (acc : List CausalGap × Nat) gapDesc =>
    if strHas gapDesc "→" then
      let parts := gapDesc.splitOn "→"
      let fromEvent := pyStrip (((parts.getD 0 "").replace "因果链断裂: " ""))
      let toEvent := pyStrip (((parts.getD 1 "").replace " 之间缺少中间环节" ""))
      let gap : CausalGap :=
        { id := "gap_" ++ toString acc.2
          from_event := fromEvent
          to_event := toEvent
          gap_type := "missing_intermediate"
          description := gapDesc
          possible_causes := infer_missing_causes fromEvent toEvent }
      (acc.1 ++ [gap], acc.2 + 1)
    else acc) ([], 1))
  match c.relations with
  | [] => fromChain.1
  | first :: _ =>
    let withRoot :=
      if first.cause.length < 10 then
        fromChain.1 ++ [{ id := "gap_" ++ toString fromChain.2
                          from_event := "?"
                          to_event := first.cause
                          gap_type := "missing_cause"
                          description := "缺少根本原因: " ++ first.cause ++ " 之前可能有其他原因"
                          possible_causes := infer_missing_causes "?" first.cause }]
      else fromChain.1
    let last := c.relations.getLastD first
    if last.effect.length < 10 then
      withRoot ++ [{ id := "gap_" ++ toString fromChain.2
                     from_event := last.effect
                     to_event := "?"
                     gap_type := "missing_effect"
                     description := "缺少最终结果: " ++ last.effect ++ " 之后可能有其他结果"
                     possible_causes := infer_missing_effects last.effect }]
    else withRoot

/-- Occurrence counts in first-appearance order (a Python dict of tallies). -/
def occurrenceCounts (l : List String) : List (String × Nat) :=
  l.foldl (fun acc k =>
    if acc.any (fun p => p.1 == k) then
      acc.map (fun p => if p.1 == k then (p.1, p.2 + 1) else p)
    else acc ++ [(k, 1)]) []

/-- Python `sorted(items, key=lambda x: x[1], reverse=True)`: stable sort,
descending by count. -/
def sortByCountDesc (l : List (String × Nat)) : List (String × Nat) :=
  List.insertionSort (fun a b => b.2 ≤ a.2) l

/-- Model of `CausalReasoner._identify_key_causes`. -/
def identify_key_causes (relations : List CausalRelation) : List String :=
  ((sortByCountDesc (occurrenceCounts (relations.map (·.cause)))).map (·.1)).take 5

/-- Model of `CausalReasoner._identify_key_effects`. -/
def identify_key_effects (relations : List CausalRelation) : List String :=
  ((sortByCountDesc (occurrenceCounts (relations.map (·.effect)))).map (·.1)).take 5

/-- Python `min(root_causes, key=lambda x: len(x))` (first minimum). -/
def minByLen : String → List String → String
  | best, [] => best
  | best, s :: ss => if s.length < best.length then minByLen s ss else minByLen best ss

/-- Model of `CausalReasoner._analyze_root_cause`. -/
def analyze_root_cause (chains : List CausalChain) : RootCauseAnalysis :=
  if chains.isEmpty then { root_cause := "无法确定", confidence := 0 }
  else
    match (chains.map (·.root_cause)).filter (fun rc => rc ≠ "") with
    | [] => { root_cause := "无法确定", confidence := 0 }
    | [rc] => { root_cause := rc, confidence := 0.9, reason := some "单一因果链,根本原因明确" }
    | rc :: rcs =>
      { root_cause := minByLen rc rcs
        confidence := 0.7
        reason := some "存在多条因果链,选择最可能的原因"
        other_possibilities := rc :: rcs }

/-- Model of `CausalReasoner._generate_alternative_explanations`. -/
def generate_alternative_explanations (text : String)
    (relations : List CausalRelation) : List String :=
  (if strHas text "投诉" then ["替代解释: 投诉可能是出于维护自身合法权益,而非恶意"] else []) ++
  (if strHas text "争执" || strHas text "冲突" then
    ["替代解释: 争执可能是双方沟通不畅导致,而非单方面责任"] else []) ++
  (if strHas text "网络" && strHas text "发布" then
    ["替代解释: 网络发布可能是出于警示他人,而非诽谤"] else []) ++
  (if 0 < relations.length then
    ["替代解释: 原因和结果之间可能存在其他未被观察到的中间因素"] else [])

/-- Model of `CausalReasoner.analyze_causality`. -/
def analyze_causality (cm : List (List (List String))) (text : String) : CausalAnalysis :=
  let relations := extract_causal_relations cm text
  let chains := build_causal_chain relations
  let gaps := chains.foldl (fun acc c => acc ++ detect_causal_gaps c) []
  { causal_relations := relations
    causal_chains := chains
    causal_gaps := gaps
    key_causes := identify_key_causes relations
    key_effects := identify_key_effects relations
    root_cause_analysis := analyze_root_cause chains
    alternative_explanations := generate_alternative_explanations text relations }

/- ## Deep reasoner: external Evidence data object -/

/-- Modelled from the spec: `src/` does not contain `evidence.py`, only
`from .evidence import Evidence, EvidenceType`.  The spec describes a fixed
evidence-type taxonomy "(e.g. document / electronic / audio-video / ...)";
the deep reasoner itself only distinguishes `DOCUMENT`, `ELECTRONIC` and
`AUDIO_VIDEO` and otherwise just counts distinct `.value` tags, so the
remaining members stand for the rest of the taxonomy. -/
inductive EvidenceType where
  | DOCUMENT | ELECTRONIC | AUDIO_VIDEO | TESTIMONY | PHYSICAL | OTHER
  deriving Repr, DecidableEq

/-- Modelled from the spec: distinct tag strings for each taxonomy member
(the reasoner only ever compares them for equality). -/
def EvidenceType.value : EvidenceType → String
  | .DOCUMENT => "document"
  | .ELECTRONIC => "electronic"
  | .AUDIO_VIDEO => "audio_video"
  | .TESTIMONY => "testimony"
  | .PHYSICAL => "physical"
  | .OTHER => "other"

/-- Modelled from the spec: the `Evidence` record — name, description, a
type tag from the taxonomy, and a weight in [0,1]; read-only to this
core. -/
structure Evidence where
  name : String
  description : String
  evidence_type : EvidenceType
  weight : Rat
  deriving Repr, DecidableEq

/- ## Deep reasoner: result shapes -/

structure ConflictEntry where
  type : String
  description : String
  severity : String
  idxs : List Nat
  deriving Repr, DecidableEq

structure ConflictAnalysisResult where
  total_conflicts : Nat
  fact_conflicts : List ConflictEntry
  evidence_conflicts : List ConflictEntry
  deriving Repr, DecidableEq

structure TimeConflictEntry where
  type : String
  description : String
  severity : String
  deriving Repr, DecidableEq

structure TimeAnalysisResult where
  timestamps_count : Nat
  timeline : TimelineSummary
  time_patterns : TimePatterns
  time_gaps : List TimeGapEntry
  critical_timestamps : List CriticalTimestampEntry
  time_conflicts : List TimeConflictEntry
  logic_valid : Bool
  logic_issues : List String
  deriving Repr, DecidableEq

structure CausalAnalysisResult where
  relations_count : Nat
  chains_count : Nat
  gaps_count : Nat
  root_cause : String
  root_cause_confidence : Rat
  key_causes : List String
  key_effects : List String
  alternative_explanations : List String
  deriving Repr, DecidableEq

structure LogicalAnalysisResult where
  logic_valid : Bool
  logic_issues : List String
  logical_consistency : Rat
  logical_completeness : Rat
  deriving Repr, DecidableEq

structure PremeditationResult where
  is_premeditated : Bool
  premeditation_score : Rat
  indicators : List String
  reasoning : String
  deriving Repr, DecidableEq

structure EvidenceChainResult where
  completeness : Rat
  consistency : Rat
  strength : String
  gaps : List String
  suggestions : List String
  deriving Repr, DecidableEq

structure DeepReasoningResult where
  timestamp : Int
  time_analysis : TimeAnalysisResult
  causal_analysis : CausalAnalysisResult
  conflict_analysis : ConflictAnalysisResult
  logical_analysis : LogicalAnalysisResult
  premeditation_analysis : PremeditationResult
  evidence_chain : EvidenceChainResult
  recommendations : List String
  confidence : Rat
  deriving Repr, DecidableEq

/- ## Deep reasoner: component analyses -/

/-- Model of `DeepReasoner._analyze_time_series`: run the time-series pipeline
(extraction, timeline, conflict detection, logic analysis) and project the
result.  `tm` carries the `re.finditer` matches for the 23 time patterns. -/
def analyze_time_seriesD (tm : List (List String)) (text : String) (now : Int) :
    Except String TimeAnalysisResult := do
  let timestamps ← extract_timestamps tm text "" now
  let tl0 := build_timeline timestamps
  let conflicts := detect_time_conflicts tl0
  let tl := { tl0 with conflicts := conflicts }
  let analysis := analyze_time_logic tl
  pure
    { timestamps_count := timestamps.length
      timeline := analysis.timeline_summary
      time_patterns := analysis.time_patterns
      time_gaps := analysis.time_gaps
      critical_timestamps := analysis.critical_timestamps
      time_conflicts := analysis.time_conflicts.map (fun c =>
        { type := c.type, description := c.description, severity := c.severity })
      logic_valid := analysis.logic_analysis.logic_valid
      logic_issues := analysis.logic_analysis.logic_issues }

/-- Model of `DeepReasoner._analyze_causality`: projection of the causal analysis. -/
def analyze_causalityD (cm : List (List (List String))) (text : String) :
    CausalAnalysisResult :=
  let analysis := analyze_causality cm text
  { relations_count := analysis.causal_relations.length
    chains_count := analysis.causal_chains.length
    gaps_count := analysis.causal_gaps.length
    root_cause := analysis.root_cause_analysis.root_cause
    root_cause_confidence := analysis.root_cause_analysis.confidence
    key_causes := analysis.key_causes
    key_effects := analysis.key_effects
    alternative_explanations := analysis.alternative_explanations }

/-- The six antonym pairs of `_has_obvious_conflict`. -/
def factConflictPairs : List (String × String) :=
  [("是", "不是"), ("有", "没有"), ("同意", "不同意"),
   ("认可", "不认可"), ("支付", "未支付"), ("收到", "未收到")]

/-- Model of `DeepReasoner._has_obvious_conflict`. -/
def has_obvious_conflict (s1 s2 : String) : Bool :=
  factConflictPairs.any (fun p =>
    (strHas s1 p.1 && strHas s2 p.2) || (strHas s1 p.2 && strHas s2 p.1))

/-- Model of `DeepReasoner._detect_fact_conflicts`: split on `。`, keep non-blank
stripped sentences, flag every unordered pair matching an antonym pair. -/
def detect_fact_conflicts (text : String) : List ConflictEntry :=
  let sentences := ((splitChars ['。'] text.toList).map
    (fun l => String.mk (stripWs l))).filter (fun s => s ≠ "")
  (ordPairs sentences.enum).filterMap (fun p =>
    if has_obvious_conflict p.1.2 p.2.2 then
      some { type := "fact"
             description := "事实矛盾: '" ++ p.1.2 ++ "' 与 '" ++ p.2.2 ++ "' 可能存在矛盾"
             severity := "medium"
             idxs := [p.1.1, p.2.1] }
    else none)

/-- The four antonym pairs of `_has_evidence_conflict`. -/
def evidenceConflictPairs : List (String × String) :=
  [("是", "不是"), ("存在", "不存在"), ("真实", "虚假"), ("正确", "错误")]

/-- Model of `DeepReasoner._has_evidence_conflict` (one direction only, unlike the
fact version). -/
def has_evidence_conflict (ev1 ev2 : Evidence) : Bool :=
  evidenceConflictPairs.any (fun p =>
    strHas (pyLower ev1.description) p.1 && strHas (pyLower ev2.description) p.2)

/-- Model of `DeepReasoner._detect_evidence_conflicts`. -/
def detect_evidence_conflicts (evidences : List Evidence) : List ConflictEntry :=
  (ordPairs evidences.enum).filterMap (fun p =>
    if has_evidence_conflict p.1.2 p.2.2 then
      some { type := "evidence"
             description := "证据矛盾: " ++ p.1.2.name ++ " 与 " ++ p.2.2.name ++ " 可能存在矛盾"
             severity := "high"
             idxs := [p.1.1, p.2.1] }
    else none)

/-- Model of `DeepReasoner._detect_conflicts`. -/
def detect_conflictsD (text : String) (evidences : List Evidence) :
    ConflictAnalysisResult :=
  let factConflicts := detect_fact_conflicts text
  let evidenceConflicts :=
    if evidences.isEmpty then [] else detect_evidence_conflicts evidences
  let conflicts := factConflicts ++ evidenceConflicts
  { total_conflicts := conflicts.length
    fact_conflicts := factConflicts
    evidence_conflicts := conflicts.filter (fun c => c.type == "evidence") }

/-- Model of `DeepReasoner._calculate_logical_consistency`:
`max(0, 1 - 0.1 * total_conflicts)`. -/
def calculate_logical_consistency (text : String) (evidences : List Evidence) : Rat :=
  max 0 (1 - ((detect_conflictsD text evidences).total_conflicts : Rat) * 0.1)

/-- Model of `DeepReasoner._calculate_logical_completeness`. -/
def calculate_logical_completeness (cm : List (List (List String))) (text : String) : Rat :=
  let analysis := analyze_causalityD cm text
  if analysis.chains_count == 0 then 0.5
  else
    let completeness := min 1 ((analysis.chains_count : Rat) * 0.3)
    let completeness :=
      if 0 < analysis.gaps_count then completeness - (analysis.gaps_count : Rat) * 0.1
      else completeness
    max 0 completeness

/-- Model of `DeepReasoner._analyze_logic` (re-runs the time-series and causal
analyses on the same text, as the source does). -/
def analyze_logicD (tm : List (List String)) (cm : List (List (List String)))
    (text : String) (evidences : List Evidence) (now : Int) :
    Except String LogicalAnalysisResult := do
  let timeAnalysis ← analyze_time_seriesD tm text now
  let timeOk := timeAnalysis.logic_valid
  let causalOk := (analyze_causalityD cm text).gaps_count == 0
  pure
    { logic_valid := timeOk && causalOk
      logic_issues :=
        (if timeOk then [] else ["时间逻辑存在问题"]) ++
        (if causalOk then [] else ["因果逻辑存在问题"])
      logical_consistency := calculate_logical_consistency text evidences
      logical_completeness := calculate_logical_completeness cm text }

/-- The five premeditation keyword classes. -/
def premeditationKeywords : List String := ["准备", "计划", "安排", "设计", "预谋", "策划"]

def planningKeywords : List String := ["随即", "立刻", "立即", "马上", "紧接着"]

def calmKeywords : List String := ["冷静", "拍照", "录像", "取证", "报警"]

/-- Render `f"{score:.2f}"` for the scores this code produces (non-negative
multiples of 1/10, so two decimals are exact). -/
def fmt2 (q : Rat) : String :=
  let cents : Int := Rat.floor (q * 100)
  toString (cents / 100) ++ "." ++ pad2 (cents % 100).toNat

/-- Indicator 1 of `_analyze_premeditation`: some critical timestamp's event
text contains `之前` (and at least one timestamp was extracted). -/
def premedIndicator1 (ta : TimeAnalysisResult) : Bool :=
  0 < ta.timestamps_count &&
    ta.critical_timestamps.any (fun ts => strHas ts.event "之前")

/-- Indicator 2: a causal chain exists and the root-cause confidence exceeds
0.7. -/
def premedIndicator2 (ca : CausalAnalysisResult) : Bool :=
  0 < ca.chains_count && decide ((0.7 : Rat) < ca.root_cause_confidence)

/-- Indicator 3: premeditation vocabulary in the text. -/
def premedIndicator3 (text : String) : Bool :=
  premeditationKeywords.any (fun kw => strHas text kw)

/-- Indicator 4: immediate-sequence vocabulary in the text. -/
def premedIndicator4 (text : String) : Bool :=
  planningKeywords.any (fun kw => strHas text kw)

/-- Indicator 5: calm/evidence-gathering vocabulary in the text. -/
def premedIndicator5 (text : String) : Bool :=
  calmKeywords.any (fun kw => strHas text kw)

/-- The raw additive premeditation score (before the `min(1.0, ...)`
clamp). -/
def premedRawScore (text : String) (ta : TimeAnalysisResult)
    (ca : CausalAnalysisResult) : Rat :=
  (if premedIndicator1 ta then 0.2 else 0) +
  (if premedIndicator2 ca then 0.2 else 0) +
  (if premedIndicator3 text then 0.3 else 0) +
  (if premedIndicator4 text then 0.2 else 0) +
  (if premedIndicator5 text then 0.2 else 0)

/-- Model of `DeepReasoner._analyze_premeditation`. -/
def analyze_premeditation (text : String) (ta : TimeAnalysisResult)
    (ca : CausalAnalysisResult) : PremeditationResult :=
  let score := premedRawScore text ta ca
  let indicators :=
    (if premedIndicator1 ta then ["存在准备时间"] else []) ++
    (if premedIndicator2 ca then ["因果链清晰,有明确目标"] else []) ++
    (if premedIndicator3 text then ["出现预谋性关键词"] else []) ++
    (if premedIndicator4 text then ["行为连贯,显示出计划性"] else []) ++
    (if premedIndicator5 text then ["冷静执行,显示出专业性"] else [])
  { is_premeditated := 0.5 ≤ score
    premeditation_score := min 1 score
    indicators := indicators
    reasoning :=
      if 0.7 ≤ score then
        "高度预谋: 得分 " ++ fmt2 score ++ ", 存在 " ++ toString indicators.length ++ " 个预谋迹象"
      else if 0.5 ≤ score then
        "可能预谋: 得分 " ++ fmt2 score ++ ", 存在 " ++ toString indicators.length ++ " 个预谋迹象"
      else if 0.3 ≤ score then
        "不太像预谋: 得分 " ++ fmt2 score ++ ", 仅存在 " ++ toString indicators.length ++ " 个预谋迹象"
      else
        "不太可能是预谋: 得分 " ++ fmt2 score }

/-- Model of `DeepReasoner._calculate_evidence_completeness`: distinct type tags over
the three required categories, capped at 1. -/
def calculate_evidence_completeness (evidences : List Evidence) : Rat :=
  min 1 (((firstOccurrenceKeys (evidences.map (fun ev => ev.evidence_type.value))).length : Rat) / 3)

/-- Model of `DeepReasoner._calculate_evidence_consistency`: mean weight. -/
def calculate_evidence_consistency (evidences : List Evidence) : Rat :=
  if evidences.isEmpty then 0
  else (evidences.map (·.weight)).sum / (evidences.length : Rat)

/-- Model of `DeepReasoner._identify_evidence_gaps`. -/
def identify_evidence_gaps (evidences : List Evidence) : List String :=
  let present := evidences.map (·.evidence_type)
  (if present.contains EvidenceType.DOCUMENT then [] else ["缺少书证"]) ++
  (if present.contains EvidenceType.ELECTRONIC then [] else ["缺少电子证据"]) ++
  (if present.contains EvidenceType.AUDIO_VIDEO then [] else ["缺少视听资料"]) ++
  (if evidences.length < 3 then ["证据数量不足"] else [])

/-- Model of `DeepReasoner._generate_evidence_suggestions`. -/
def generate_evidence_suggestions (gaps : List String) : List String :=
  if gaps.isEmpty then ["证据链较为完整"]
  else "建议补充以下证据:" :: gaps.map (fun g => "  • " ++ g)

/-- Model of `DeepReasoner._analyze_evidence_chain`. -/
def analyze_evidence_chain (evidences : List Evidence) : EvidenceChainResult :=
  if evidences.isEmpty then
    { completeness := 0
      consistency := 0
      strength := "weak"
      gaps := ["缺少证据材料"]
      suggestions := ["建议补充证据材料"] }
  else
    let completeness := calculate_evidence_completeness evidences
    let consistency := calculate_evidence_consistency evidences
    let strength :=
      if 0.8 ≤ completeness ∧ 0.8 ≤ consistency then "strong"
      else if 0.6 ≤ completeness ∧ 0.6 ≤ consistency then "moderate"
      else "weak"
    let gaps := identify_evidence_gaps evidences
    { completeness := completeness
      consistency := consistency
      strength := strength
      gaps := gaps
      suggestions := generate_evidence_suggestions gaps }

/- ## Deep reasoner: orchestration -/

/-- Model of `DeepReasoner._generate_recommendations`. -/
def generate_deep_recommendations (result : DeepReasoningResult) : List String :=
  let r1 := if result.time_analysis.logic_issues.isEmpty then []
    else ["⚠️ 时间逻辑存在问题,建议核实时间信息"]
  let r2 := if 0 < result.causal_analysis.gaps_count then
      ["⚠️ 存在 " ++ toString result.causal_analysis.gaps_count ++ " 个因果链缺口,建议补充中间环节"]
    else []
  let r3 := if 0 < result.conflict_analysis.total_conflicts then
      ["⚠️ 发现 " ++ toString result.conflict_analysis.total_conflicts ++ " 个矛盾,需要核实"]
    else []
  let r4 := if result.logical_analysis.logic_valid then []
    else ["⚠️ 逻辑存在问题,需要重新梳理"]
  let r5 := if result.premeditation_analysis.is_premeditated ∧
      (0.7 : Rat) ≤ result.premeditation_analysis.premeditation_score then
      ["⚠️ 高度预谋,建议深入调查对方背景"]
    else []
  let recs := r1 ++ r2 ++ r3 ++ r4 ++ r5 ++ result.evidence_chain.suggestions
  if recs.isEmpty then ["✅ 深度推理未发现明显问题,逻辑清晰"]
  else recs ++ ["ℹ️ 建议基于以上发现进一步调查取证"]

/-- Model of `DeepReasoner._calculate_confidence`. -/
def calculate_confidenceD (result : DeepReasoningResult) : Rat :=
  let c1 : Rat := if result.time_analysis.logic_valid then 0.25 else 0.1
  let c2 : Rat := 0.25 * result.causal_analysis.root_cause_confidence
  let c3 : Rat := 0.25 * result.logical_analysis.logical_consistency
  let c4 : Rat :=
    if result.evidence_chain.strength == "strong" then 0.25
    else if result.evidence_chain.strength == "moderate" then 0.15
    else 0.05
  min 1 (c1 + c2 + c3 + c4)

/-- Model of `DeepReasoner.reason`.  The wall-clock instant `datetime.now()` reads is
the explicit argument `now` (both the result's `timestamp` field and the
fallback reference date of the nested extractions).  `tm` / `cm` carry the
`re.finditer` match data for the 23 time patterns and 5 causal patterns, and
`ctx` is the `context` argument, which the source accepts but never reads. -/
def reasonE (tm : List (List String)) (cm : List (List (List String)))
    (text : String) (evidences : List Evidence) (ctx : List (String × String))
    (now : Int) : Except String DeepReasoningResult := do
  let _ := ctx
  let ta ← analyze_time_seriesD tm text now
  let ca := analyze_causalityD cm text
  let conflicts := detect_conflictsD text evidences
  let la ← analyze_logicD tm cm text evidences now
  let pa := analyze_premeditation text ta ca
  let ec := analyze_evidence_chain evidences
  let resultBase : DeepReasoningResult :=
    { timestamp := now
      time_analysis := ta
      causal_analysis := ca
      conflict_analysis := conflicts
      logical_analysis := la
      premeditation_analysis := pa
      evidence_chain := ec
      recommendations := []
      confidence := 0 }
  let withRecs := { resultBase with recommendations := generate_deep_recommendations resultBase }
  pure { withRecs with confidence := calculate_confidenceD withRecs }

/- ## Regex-match invariants and auxiliary measures used by the theorems -/

/-- What the causal regular expressions guarantee about one match: if the
match has a second captured group, that group is one of the pattern's
connective alternatives (the group IS the alternation) and occurs in the
text. -/
def groupOkB (text : String) (conns : List String) (g : List String) : Bool :=
  match g.get? 1 with
  | none => true
  | some s => conns.contains s && strHas text s

/-- The `re.finditer` invariant for the five causal patterns. -/
def cmOkB (text : String) (cm : List (List (List String))) : Bool :=
  (legalCausalPatterns.zip cm).all (fun pr => pr.2.all (groupOkB text pr.1.2))

/-- The `re.finditer` invariant for the 23 time patterns: every matched text
is a non-empty substring of the text (each pattern contains a mandatory
literal or `\d`-class atom, so no pattern matches the empty string). -/
def tmOkB (text : String) (tm : List (List String)) : Bool :=
  tm.all (fun ms => ms.all (fun s => decide (s ≠ "") && strHas text s))

/-- The number of graph keys not yet visited: the termination measure of
`_trace_chain`'s recursion. -/
def unvisitedCount (g : List (String × List String)) (visited : List String) : Nat :=
  ((graphKeys g).toFinset \ visited.toFinset).card

/-- No `re.finditer` matches for any of the 23 time patterns (what the
regular expressions produce on the empty text). -/
def emptyTimeMatches : List (List String) := List.replicate 23 []

/-- No `re.finditer` matches for any of the 5 causal patterns. -/
def emptyCausalMatches : List (List (List String)) := [[], [], [], [], []]

/-- The `re.finditer` matches the five causal patterns produce on the
Scenario 1 text `"因为下雨,所以迟到。"`: pattern 1
(`因为(.{0,100}?)(所以|因此|因而|故而)`) captures `("下雨,", "所以")` and
pattern 4 (`(.{0,100}?)(所以|因此|因而)(.{0,100}?)`) captures
`("因为下雨,", "所以", "")`; the other patterns find no match. -/
def scenario1Matches : List (List (List String)) :=
  [[["下雨,", "所以"]], [], [], [["因为下雨,", "所以", ""]], []]

/-- A fixed time-analysis summary, used to exercise `_analyze_premeditation`
while holding its time-analysis input fixed. -/
def premedFixedTA : TimeAnalysisResult :=
  { timestamps_count := 1
    timeline := { total_timestamps := 1, time_range := "", total_duration := "" }
    time_patterns := {}
    time_gaps := []
    critical_timestamps := []
    time_conflicts := []
    logic_valid := true
    logic_issues := [] }

/-- A fixed causal-analysis summary for the same purpose. -/
def premedFixedCA : CausalAnalysisResult :=
  { relations_count := 0
    chains_count := 0
    gaps_count := 0
    root_cause := "无法确定"
    root_cause_confidence := 0
    key_causes := []
    key_effects := []
    alternative_explanations := [] }

/-- A resolved day-precision timestamp (event text free of any order/duration
cue keywords). -/
def precisionDemoTs1 : Timestamp :=
  { id := "timestamp_1", text := "5月1日", datetime := some 0,
    precision := .DAY, event := "甲", confidence := 0.9 }

/-- A resolved minute-precision timestamp one hour later. -/
def precisionDemoTs2 : Timestamp :=
  { id := "timestamp_2", text := "下午3点", datetime := some 3600,
    precision := .MINUTE, event := "乙", confidence := 0.9 }

/-- The timeline built from the two timestamps above: its only conflict is
the single low-severity precision note. -/
def precisionDemoTimeline : Timeline := build_timeline [precisionDemoTs1, precisionDemoTs2]

/-- A two-node cyclic causal graph (甲 → 乙 → 甲). -/
def cyclicDemoGraph : List (String × List String) := [("甲", ["乙"]), ("乙", ["甲"])]

/- ## Helper lemmas: strings -/

theorem startsWithSeq_nil_false (l : List Char) (h : l ≠ []) :
    startsWithSeq l [] = false := by
  cases l with
  | nil => exact absurd rfl h
  | cons c cs => rfl

theorem strHas_empty_text (s : String) (h : s ≠ "") : strHas "" s = false := by
  have hl : s.toList ≠ [] := by
    intro he
    apply h
    cases s with
    | mk data => cases data with
      | nil => rfl
      | cons c cs => simp [String.toList] at he
  simpa [strHas, hasSub] using startsWithSeq_nil_false s.toList hl

/- ## Helper lemmas: the explicit causal pass dies on every match -/

/-- Every connective alternative of every causal pattern cleans to at most
two characters (`所以/因此/因而/导致/引起/造成/致使` are removed outright;
`故而/进而/从而` survive with length 2). -/
theorem connectiveCleanShort :
    ∀ pr ∈ legalCausalPatterns, ∀ s ∈ pr.2,
      (cleanCauseEffect (pyStrip s)).length ≤ 2 := by decide

/-- A match whose second captured group cleans to ≤ 2 characters contributes
nothing: either it has fewer than two groups, or its effect candidate fails
the length filter. -/
theorem explicitStepOne_skip (ct : CausalType) (a : List CausalRelation × Nat)
    (groups : List String)
    (h : ∀ s, groups.get? 1 = some s → (cleanCauseEffect (pyStrip s)).length ≤ 2) :
    explicitStepOne ct a groups = a := by
  match groups with
  | [] => rfl
  | [g0] => rfl
  | g0 :: g1 :: gs =>
    have h2 := h g1 rfl
    have hlen : 2 ≤ (g0 :: g1 :: gs).length := by simp
    have hno : ¬ (2 < (cleanCauseEffect (pyStrip ((g0 :: g1 :: gs).getD 0 ""))).length ∧
        2 < (cleanCauseEffect (pyStrip ((g0 :: g1 :: gs).getD 1 ""))).length) := fun hc =>
      absurd (by simpa [List.getD] using hc.2) (Nat.not_lt.mpr h2)
    simp only [explicitStepOne]
    rw [if_pos hlen, if_neg hno]

theorem foldl_explicitStepOne_skip (ct : CausalType) (ms : List (List String)) :
    ∀ acc, (∀ g ∈ ms, ∀ s, g.get? 1 = some s →
      (cleanCauseEffect (pyStrip s)).length ≤ 2) →
    ms.foldl (explicitStepOne ct) acc = acc := by
  induction ms with
  | nil => intro acc _; rfl
  | cons g gs ih =>
    intro acc h
    rw [List.foldl_cons, explicitStepOne_skip ct acc g (h g (by simp))]
    exact ih acc (fun g2 hg2 => h g2 (by simp [hg2]))

theorem foldl_explicitStepPattern_skip
    (prs : List ((CausalType × List String) × List (List String))) :
    ∀ acc, (∀ pr ∈ prs, ∀ g ∈ pr.2, ∀ s, g.get? 1 = some s →
      (cleanCauseEffect (pyStrip s)).length ≤ 2) →
    prs.foldl explicitStepPattern acc = acc := by
  induction prs with
  | nil => intro acc _; rfl
  | cons pr prs ih =>
    intro acc h
    rw [List.foldl_cons]
    rw [show explicitStepPattern acc pr = acc from
      foldl_explicitStepOne_skip pr.1.1 pr.2 acc (h pr (by simp))]
    exact ih acc (fun pr2 hpr2 => h pr2 (by simp [hpr2]))

/-- The invariant `cmOkB` delivers exactly the hypothesis the skip lemmas
need, for every pattern/match pair. -/
theorem cmOk_dead (text : String) (cm : List (List (List String)))
    (h : cmOkB text cm = true) :
    ∀ pr ∈ legalCausalPatterns.zip cm, ∀ g ∈ pr.2, ∀ s, g.get? 1 = some s →
      (cleanCauseEffect (pyStrip s)).length ≤ 2 := by
  intro pr hpr g hg s hs
  have h1 := List.all_eq_true.mp (List.all_eq_true.mp h pr hpr) g hg
  rw [groupOkB, hs] at h1
  simp only [Bool.and_eq_true] at h1
  have hmem : s ∈ pr.1.2 := by simpa using h1.1
  exact connectiveCleanShort pr.1 (List.of_mem_zip hpr).1 s hmem

theorem explicit_nil_of_cmOk (text : String) (cm : List (List (List String)))
    (h : cmOkB text cm = true) : explicitCausalRelations cm = [] := by
  unfold explicitCausalRelations
  rw [foldl_explicitStepPattern_skip _ _ (cmOk_dead text cm h)]

/- ## Helper lemmas: deduplication and implicit relations -/

theorem dedupStep_mem (acc : List CausalRelation × List (String × String))
    (x r : CausalRelation) (hr : r ∈ (dedupStep acc x).1) :
    r ∈ acc.1 ∨ r = x := by
  unfold dedupStep at hr
  split_ifs at hr
  · exact Or.inl hr
  · rcases List.mem_append.mp hr with h2 | h2
    · exact Or.inl h2
    · exact Or.inr (by simpa using h2)

theorem dedupRelations_foldl_mem (l : List CausalRelation) :
    ∀ (acc : List CausalRelation × List (String × String)) (r : CausalRelation),
      r ∈ (l.foldl dedupStep acc).1 → r ∈ acc.1 ∨ r ∈ l := by
  induction l with
  | nil => intro acc r hr; exact Or.inl hr
  | cons x xs ih =>
    intro acc r hr
    rw [List.foldl_cons] at hr
    rcases ih (dedupStep acc x) r hr with h | h
    · rcases dedupStep_mem acc x r h with h2 | h2
      · exact Or.inl h2
      · exact Or.inr (by simp [h2])
    · exact Or.inr (by simp [h])

theorem dedupRelations_sub (l : List CausalRelation) :
    ∀ r ∈ dedupRelations l, r ∈ l := by
  intro r hr
  rcases dedupRelations_foldl_mem l ([], []) r hr with h | h
  · simp at h
  · exact h

theorem implicitStep_attrs (sentences : List String) (i : Nat) (r : CausalRelation)
    (hsome : implicitStep sentences i = some r) :
    r.causal_type = CausalType.INDIRECT ∧ r.strength = CausalStrength.WEAK ∧
    r.confidence = 0.6 := by
  simp only [implicitStep] at hsome
  split_ifs at hsome
  cases hsome
  exact ⟨rfl, rfl, rfl⟩

theorem implicit_relation_attrs (text : String) :
    ∀ r ∈ extract_implicit_relations text,
      r.causal_type = CausalType.INDIRECT ∧ r.strength = CausalStrength.WEAK ∧
      r.confidence = 0.6 := by
  intro r hr
  unfold extract_implicit_relations at hr
  obtain ⟨i, _, hsome⟩ := List.mem_filterMap.mp hr
  exact implicitStep_attrs _ i r hsome

/- ## Claim C4 -/

/-- C4: for every input text and every set of `re.finditer` matches
satisfying the causal-pattern capture invariant (the second captured group is
one of the pattern's connective alternatives and occurs in the text), the
explicit connective pass of `CausalReasoner.extract_causal_relations`
contributes no relation — the connective cleans to at most two characters and
the `len(effect) > 2` filter discards it — so every returned relation is an
implicit adjacent-sentence relation with causal type INDIRECT, strength WEAK
and confidence 0.6. -/
theorem c4_explicit_patterns_never_contribute (text : String)
    (cm : List (List (List String))) (h : cmOkB text cm = true) :
    explicitCausalRelations cm = [] ∧
    extract_causal_relations cm text = dedupRelations (extract_implicit_relations text) ∧
    ∀ r ∈ extract_causal_relations cm text,
      r.causal_type = CausalType.INDIRECT ∧ r.strength = CausalStrength.WEAK ∧
      r.confidence = 0.6 := by
  have hexp := explicit_nil_of_cmOk text cm h
  have heq : extract_causal_relations cm text =
      dedupRelations (extract_implicit_relations text) := by
    unfold extract_causal_relations
    rw [hexp, List.nil_append]
  refine ⟨hexp, heq, ?_⟩
  intro r hr
  rw [heq] at hr
  exact implicit_relation_attrs text r (dedupRelations_sub _ r hr)

/-- Witness for C4: on the text `"他首先进入店铺。随后他离开了。"` (no causal
connectives, so the patterns produce no matches) the pipeline returns exactly
one implicit INDIRECT/WEAK/0.6 relation. -/
theorem c4_witness :
    cmOkB "他首先进入店铺。随后他离开了。" emptyCausalMatches = true ∧
    extract_causal_relations emptyCausalMatches "他首先进入店铺。随后他离开了。" =
      dedupRelations (extract_implicit_relations "他首先进入店铺。随后他离开了。") ∧
    ∀ r ∈ extract_causal_relations emptyCausalMatches "他首先进入店铺。随后他离开了。",
      r.causal_type = CausalType.INDIRECT ∧ r.strength = CausalStrength.WEAK ∧
      r.confidence = 0.6 :=
  ⟨by decide,
   (c4_explicit_patterns_never_contribute _ _ (by decide)).2.1,
   (c4_explicit_patterns_never_contribute _ _ (by decide)).2.2⟩

/- ## Claim C1 -/

/-- C1 (code evaluated at the failing input): on the Scenario 1 text
`"因为下雨,所以迟到。"`, `extract_causal_relations` returns NO relation at
all, for any matches satisfying the capture invariant: every explicit match's
second captured group is the connective itself (cleaned away to ≤ 2
characters), the cleaned cause `"下雨"` also has length 2 and would fail the
strict `> 2` filter, and the implicit pass finds no adjacent sentence pair of
length ≥ 5.  The spec's expected relation (下雨 → 迟到, DIRECT, 0.85) is
never produced. -/
theorem c1_scenario1_extraction_empty (cm : List (List (List String)))
    (h : cmOkB "因为下雨,所以迟到。" cm = true) :
    extract_causal_relations cm "因为下雨,所以迟到。" = [] := by
  unfold extract_causal_relations
  rw [explicit_nil_of_cmOk _ cm h, List.nil_append]
  decide

/-- Witness for C1, with the matches the five regular expressions actually
produce on the Scenario 1 text. -/
theorem c1_witness :
    cmOkB "因为下雨,所以迟到。" scenario1Matches = true ∧
    extract_causal_relations scenario1Matches "因为下雨,所以迟到。" = [] :=
  ⟨by decide, c1_scenario1_extraction_empty scenario1Matches (by decide)⟩

/- ## Claim C10 -/

theorem tmOk_empty_forces_nil (tm : List (List String)) (h : tmOkB "" tm = true) :
    ∀ ms ∈ tm, ms = [] := by
  intro ms hms
  cases ms with
  | nil => rfl
  | cons s ss =>
    have h1 := List.all_eq_true.mp (List.all_eq_true.mp h _ hms) s (by simp)
    simp only [Bool.and_eq_true, decide_eq_true_eq] at h1
    exact absurd h1.2 (by rw [strHas_empty_text s h1.1]; simp)

theorem foldl_tsStepPattern_nil (text : String) (reference : Int)
    (prs : List (TimePrecision × List String)) :
    ∀ acc, (∀ pr ∈ prs, pr.2 = []) →
      prs.foldl (tsStepPattern text reference) acc = acc := by
  induction prs with
  | nil => intro acc _; rfl
  | cons pr prs ih =>
    intro acc h
    rw [List.foldl_cons]
    rw [show tsStepPattern text reference acc pr = acc by
      unfold tsStepPattern; rw [h pr (by simp)]; rfl]
    exact ih acc (fun pr2 hpr2 => h pr2 (by simp [hpr2]))

/-- C10: for the empty input text (under the invariant that every regex
match is a non-empty substring of the text, which forces all match lists to
be empty), `extract_timestamps` returns the empty list, and
`analyze_causality` returns zero relations, zero chains, zero gaps, the
undetermined root-cause label `"无法确定"` and root-cause confidence 0. -/
theorem c10_empty_text_degrades (tm : List (List String))
    (cm : List (List (List String))) (now : Int)
    (h1 : tmOkB "" tm = true) (h2 : cmOkB "" cm = true) :
    extract_timestamps tm "" "" now = .ok [] ∧
    (analyze_causality cm "").causal_relations = [] ∧
    (analyze_causality cm "").causal_chains = [] ∧
    (analyze_causality cm "").causal_gaps = [] ∧
    (analyze_causality cm "").root_cause_analysis.root_cause = "无法确定" ∧
    (analyze_causality cm "").root_cause_analysis.confidence = 0 := by
  have hts : extract_timestamps tm "" "" now = .ok [] := by
    have hdet : determine_reference_date "" "" now = Except.ok now := rfl
    have hfold : (timePatternPrecisions.zip tm).foldl (tsStepPattern "" now)
        ([], 1) = ([], 1) :=
      foldl_tsStepPattern_nil "" now _ ([], 1) (fun pr hpr =>
        tmOk_empty_forces_nil tm h1 pr.2 (List.of_mem_zip hpr).2)
    simp [extract_timestamps, hdet, hfold, dedupTimestamps, firstOccurrenceKeys]
  have hrel : extract_causal_relations cm "" = [] := by
    unfold extract_causal_relations
    rw [explicit_nil_of_cmOk _ cm h2, List.nil_append]
    decide
  refine ⟨hts, ?_, ?_, ?_, ?_, ?_⟩ <;>
    simp [analyze_causality, hrel, build_causal_chain, analyze_root_cause]

/-- Witness for C10 at the concrete match data the regular expressions
produce on the empty text (no matches at all). -/
theorem c10_witness :
    (tmOkB "" emptyTimeMatches = true ∧ cmOkB "" emptyCausalMatches = true) ∧
    extract_timestamps emptyTimeMatches "" "" 0 = .ok [] ∧
    (analyze_causality emptyCausalMatches "").causal_relations = [] ∧
    (analyze_causality emptyCausalMatches "").root_cause_analysis.root_cause = "无法确定" ∧
    (analyze_causality emptyCausalMatches "").root_cause_analysis.confidence = 0 :=
  ⟨⟨by decide, by decide⟩,
   (c10_empty_text_degrades emptyTimeMatches emptyCausalMatches 0 (by decide) (by decide)).1,
   (c10_empty_text_degrades emptyTimeMatches emptyCausalMatches 0 (by decide) (by decide)).2.1,
   (c10_empty_text_degrades emptyTimeMatches emptyCausalMatches 0 (by decide) (by decide)).2.2.2.2.1,
   (c10_empty_text_degrades emptyTimeMatches emptyCausalMatches 0 (by decide) (by decide)).2.2.2.2.2⟩

/- ## Claim C2 -/

/-- C2 counterexample: a timeline whose only conflict is the single
low-severity precision note (two resolved timestamps, day vs minute
precision, one hour apart, no cue keywords) still has `logic_valid = false` —
`_analyze_logic` flips `logic_valid` on ANY conflict, not only on
critical/high ones as the claim states. -/
theorem c2_counterexample :
    ((detect_time_conflicts precisionDemoTimeline).all
      (fun c => c.severity ≠ "critical" ∧ c.severity ≠ "high")) = true ∧
    (analyze_time_logic { precisionDemoTimeline with
      conflicts := detect_time_conflicts precisionDemoTimeline
      }).logic_analysis.logic_valid = false := by
  constructor
  · decide
  · decide

/-- C2 amended: `analyze_time_logic` reports `logic_valid = true` exactly
when the timeline's conflict list is EMPTY; any conflict, of any severity
(including the single low-severity precision note), makes it false.  Only
the `logic_issues` list is restricted to critical/high conflicts. -/
theorem c2_amended_logic_valid_iff_no_conflicts (tl : Timeline) :
    ((analyze_time_logic tl).logic_analysis.logic_valid = true ↔ tl.conflicts = []) ∧
    (analyze_time_logic tl).logic_analysis.logic_issues =
      (if tl.conflicts.isEmpty then [] else
        (tl.conflicts.filter
          (fun c => c.severity == "critical" || c.severity == "high")).map (·.description)) := by
  unfold analyze_time_logic analyze_logic_ts
  cases hc : tl.conflicts with
  | nil => simp
  | cons c cs =>
    simp only [List.isEmpty_cons, if_false, Bool.false_eq_true]
    constructor
    · constructor
      · intro h
        split at h <;> simp_all
      · intro h; cases h
    · split <;> simp_all

/- ## Claim C6 -/

/-- C6 (code evaluated at the failing input): parsing the named relative day
`"大前天"` (three-days-before) against reference instant 0 resolves to the
midnight TWO days before the reference, not three — the `elif '前天' in
text` branch fires first because `前天` is a substring of `大前天`, so the
dedicated `大前天` branch is unreachable. -/
theorem c6_da_qian_tian_resolves_two_days_back :
    parse_datetime "大前天" 0 TimePrecision.DAY = some (0 - 2 * 86400) ∧
    parse_datetime "大前天" 0 TimePrecision.DAY ≠ some (0 - 3 * 86400) := by
  constructor
  · decide
  · decide

/- ## Claim C5 -/

/-- C5 (code evaluated at the failing input): for the text
`"2024年13月1日"` — an absolute date expression with month 13 —
`DeepReasoner.reason` raises instead of degrading: the reference-date scan
`_determine_reference_date` calls `datetime(2024, 13, 1)` OUTSIDE any
`try/except`, and the `ValueError` propagates out of `reason` for every
match data, evidence list, context and call time.  (The same malformed value
inside `_parse_datetime` would have been caught and turned into an
unresolved estimate `Timestamp`.) -/
theorem c5_invalid_reference_date_raises (tm : List (List String))
    (cm : List (List (List String))) (ev : List Evidence)
    (ctx : List (String × String)) (now : Int) :
    reasonE tm cm "2024年13月1日" ev ctx now = .error "month out of range" := rfl

/- ## Claim C9: termination of the chain traversal -/

theorem unvisitedCount_mono (g : List (String × List String))
    (v v2 : List String) (h : ∀ x ∈ v, x ∈ v2) :
    unvisitedCount g v2 ≤ unvisitedCount g v := by
  apply Finset.card_le_card
  apply Finset.sdiff_subset_sdiff (Finset.Subset.refl _)
  intro x hx
  rw [List.mem_toFinset] at hx ⊢
  exact h x hx

theorem unvisitedCount_cons_lt (g : List (String × List String)) (s : String)
    (v : List String) (hk : s ∈ graphKeys g) (hv : s ∉ v) :
    unvisitedCount g (s :: v) < unvisitedCount g v := by
  unfold unvisitedCount
  rw [List.toFinset_cons, Finset.sdiff_insert]
  apply Finset.card_erase_lt_of_mem
  rw [Finset.mem_sdiff, List.mem_toFinset, List.mem_toFinset]
  exact ⟨hk, hv⟩

theorem traceKids_visited_sub
    (recur : String → List String → Option (List String × List String))
    (hrec : ∀ k v ch v2, recur k v = some (ch, v2) → ∀ x ∈ v, x ∈ v2) :
    ∀ (ks chain visited : List String) (ch v2 : List String),
      traceKids recur ks chain visited = some (ch, v2) → ∀ x ∈ visited, x ∈ v2 := by
  intro ks
  induction ks with
  | nil =>
    intro chain visited ch v2 h x hx
    cases h
    exact hx
  | cons k kt ih =>
    intro chain visited ch v2 h x hx
    rw [traceKids] at h
    by_cases hc : visited.contains k
    · rw [if_pos hc] at h
      exact ih chain visited ch v2 h x hx
    · rw [if_neg hc] at h
      cases hrek : recur k visited with
      | none => rw [hrek] at h; cases h
      | some p =>
        rw [hrek] at h
        exact ih _ p.2 ch v2 h x (hrec k visited p.1 p.2 (by rw [hrek]) x hx)

theorem traceChainF_visited_sub :
    ∀ (fuel : Nat) (start : String) (g : List (String × List String))
      (visited ch v2 : List String),
      traceChainF fuel start g visited = some (ch, v2) → ∀ x ∈ visited, x ∈ v2 := by
  intro fuel
  induction fuel with
  | zero => intro start g visited ch v2 h; cases h
  | succ f ih =>
    intro start g visited ch v2 h x hx
    rw [traceChainF] at h
    by_cases hb : visited.contains start || !(graphKeys g).contains start
    · rw [if_pos hb] at h
      cases h
      exact hx
    · rw [if_neg hb] at h
      exact traceKids_visited_sub _ (fun k v ch2 v3 hr => ih k g v ch2 v3 hr)
        _ _ _ ch v2 h x (by simp [hx])

theorem traceKids_total (g : List (String × List String)) (f : Nat)
    (recur : String → List String → Option (List String × List String))
    (hrecTot : ∀ k v, unvisitedCount g v < f → (recur k v).isSome = true)
    (hrecSub : ∀ k v ch v2, recur k v = some (ch, v2) → ∀ x ∈ v, x ∈ v2) :
    ∀ (ks chain visited : List String), unvisitedCount g visited < f →
      (traceKids recur ks chain visited).isSome = true := by
  intro ks
  induction ks with
  | nil => intro chain visited _; rfl
  | cons k kt ih =>
    intro chain visited hm
    rw [traceKids]
    by_cases hc : visited.contains k
    · rw [if_pos hc]
      exact ih chain visited hm
    · rw [if_neg hc]
      cases hrek : recur k visited with
      | none =>
        exact absurd (hrecTot k visited hm) (by rw [hrek]; simp)
      | some p =>
        have hsub := hrecSub k visited p.1 p.2 (by rw [hrek])
        exact ih (chain ++ p.1) p.2
          (lt_of_le_of_lt (unvisitedCount_mono g visited p.2 hsub) hm)

/-- C9: the depth-first traversal `_trace_chain` terminates on every finite
graph, cyclic or not: with any fuel exceeding the number of not-yet-visited
graph keys, the fuelled recursion completes (never returns the out-of-fuel
marker), because membership in the shared visited set is checked before each
recursive descent and the visited set strictly grows at each level. -/
theorem c9_trace_chain_terminates :
    ∀ (fuel : Nat) (start : String) (g : List (String × List String))
      (visited : List String), unvisitedCount g visited < fuel →
      (traceChainF fuel start g visited).isSome = true := by
  intro fuel
  induction fuel with
  | zero => intro start g visited hm; exact absurd hm (by simp)
  | succ f ih =>
    intro start g visited hm
    rw [traceChainF]
    by_cases hb : visited.contains start || !(graphKeys g).contains start
    · rw [if_pos hb]; rfl
    · rw [if_neg hb]
      simp only [Bool.or_eq_true, Bool.not_eq_true', not_or, Bool.not_eq_false] at hb
      have hknot : start ∈ graphKeys g := by
        have := hb.2
        simpa using this
      have hvnot : start ∉ visited := by
        have := hb.1
        simpa using this
      have hlt := unvisitedCount_cons_lt g start visited hknot hvnot
      exact traceKids_total g f _ (fun k v hv => ih k g v hv)
        (fun k v ch v2 hr => traceChainF_visited_sub f k g v ch v2 hr)
        _ _ _ (by omega)

/-- Witness for C9: a two-node cyclic graph 甲 → 乙 → 甲 is traversed to
completion with fuel 3. -/
theorem c9_witness :
    unvisitedCount cyclicDemoGraph [] < 3 ∧
    (traceChainF 3 "甲" cyclicDemoGraph []).isSome = true :=
  ⟨by decide, c9_trace_chain_terminates 3 "甲" cyclicDemoGraph [] (by decide)⟩

/- ## Claim C7: timeline ordering and interval count -/

theorem tl_foldl_add_perm : ∀ (l : List Timestamp) (tl : Timeline),
    ((l.foldl Timeline.add_timestamp tl).timestamps).Perm (tl.timestamps ++ l) := by
  intro l
  induction l with
  | nil => intro tl; simp
  | cons x xs ih =>
    intro tl
    rw [List.foldl_cons]
    refine (ih (tl.add_timestamp x)).trans ?_
    have h1 : (tl.add_timestamp x).timestamps.Perm (tl.timestamps ++ [x]) :=
      List.perm_insertionSort tsLe _
    have h2 := h1.append_right xs
    simpa using h2

theorem tl_foldl_add_sorted : ∀ (l : List Timestamp) (tl : Timeline),
    tl.timestamps.Pairwise tsLe →
    ((l.foldl Timeline.add_timestamp tl).timestamps).Pairwise tsLe := by
  intro l
  induction l with
  | nil => intro tl h; exact h
  | cons x xs ih =>
    intro tl _
    rw [List.foldl_cons]
    exact ih _ (List.sorted_insertionSort tsLe _)

theorem length_filterMap_of_isSome (f : α → Option β) :
    ∀ (L : List α), (∀ p ∈ L, (f p).isSome = true) →
      (L.filterMap f).length = L.length := by
  intro L
  induction L with
  | nil => intro _; rfl
  | cons x xs ih =>
    intro h
    rw [List.filterMap_cons]
    cases hf : f x with
    | none => exact absurd (h x (by simp)) (by rw [hf]; simp)
    | some b => simp [ih (fun p hp => h p (by simp [hp]))]

theorem build_timeline_timestamps_perm (l : List Timestamp) :
    (build_timeline l).timestamps.Perm (l.filter (fun t => t.datetime.isSome)) := by
  simp only [build_timeline]
  refine (tl_foldl_add_perm _ _).trans ?_
  simpa using List.perm_insertionSort tsLe _

/-- C7: `build_timeline` returns a timeline whose timestamp sequence is
non-decreasing under the datetime sort key, and whose interval list has
length `max(0, resolved_count − 1)` where `resolved_count` counts the input
timestamps with a resolved datetime. -/
theorem c7_build_timeline_sorted_and_interval_count (l : List Timestamp) :
    (build_timeline l).timestamps.Pairwise tsLe ∧
    ((build_timeline l).intervals.length : Int) =
      max 0 (((l.filter (fun t => t.datetime.isSome)).length : Int) - 1) := by
  have hmem : ∀ t ∈ (build_timeline l).timestamps, t.datetime.isSome = true := by
    intro t ht
    exact (List.mem_filter.mp ((build_timeline_timestamps_perm l).mem_iff.mp ht)).2
  have hlen : (build_timeline l).timestamps.length =
      (l.filter (fun t => t.datetime.isSome)).length :=
    (build_timeline_timestamps_perm l).length_eq
  constructor
  · simp only [build_timeline]
    exact tl_foldl_add_sorted _ _ (by simp)
  · have hiv : (build_timeline l).intervals =
        (((build_timeline l).timestamps.zip (build_timeline l).timestamps.tail).filterMap
          intervalOfPair) := by
      simp only [build_timeline]
    have hall : ∀ p ∈ ((build_timeline l).timestamps.zip
        (build_timeline l).timestamps.tail), (intervalOfPair p).isSome = true := by
      intro p hp
      have h1 := hmem p.1 (List.of_mem_zip hp).1
      have h2 := hmem p.2 ((List.tail_sublist _).subset (List.of_mem_zip hp).2)
      unfold intervalOfPair
      cases hd1 : p.1.datetime with
      | none => rw [hd1] at h1; cases h1
      | some a =>
        cases hd2 : p.2.datetime with
        | none => rw [hd2] at h2; cases h2
        | some b => rfl
    have hN : (build_timeline l).intervals.length =
        (l.filter (fun t => t.datetime.isSome)).length - 1 := by
      rw [hiv, length_filterMap_of_isSome _ _ hall, List.length_zip, List.length_tail,
        hlen, Nat.min_eq_right (Nat.sub_le _ _)]
    cases hn : (l.filter (fun t => t.datetime.isSome)).length with
    | zero => rw [hN, hn]; decide
    | succ n =>
      rw [hN, hn]
      rw [max_eq_right (by omega : (0 : Int) ≤ ((n + 1 : Nat) : Int) - 1)]
      omega

/- ## Claim C8: premeditation score bounds and monotonicity -/

/-- C8: holding the time-analysis and causal-analysis inputs fixed,
`_analyze_premeditation` returns a score in [0,1], and the score is monotone
in the text-dependent indicator keyword classes: if every indicator class
present in text A is present in text B (classes 1 and 2 depend only on the
fixed analysis inputs, so the subset condition reduces to the three
text-driven classes), then score(A) ≤ score(B). -/
theorem c8_premeditation_monotone (ta : TimeAnalysisResult)
    (ca : CausalAnalysisResult) (tA tB : String)
    (h3 : premedIndicator3 tA = true → premedIndicator3 tB = true)
    (h4 : premedIndicator4 tA = true → premedIndicator4 tB = true)
    (h5 : premedIndicator5 tA = true → premedIndicator5 tB = true) :
    0 ≤ (analyze_premeditation tA ta ca).premeditation_score ∧
    (analyze_premeditation tA ta ca).premeditation_score ≤ 1 ∧
    (analyze_premeditation tA ta ca).premeditation_score ≤
      (analyze_premeditation tB ta ca).premeditation_score := by
  have hraw_nonneg : ∀ t, (0 : Rat) ≤ premedRawScore t ta ca := by
    intro t
    unfold premedRawScore
    split_ifs <;> norm_num
  have hterm : ∀ (cA cB : Bool) (w : Rat), 0 ≤ w → (cA = true → cB = true) →
      (if cA = true then w else 0) ≤ (if cB = true then w else 0) := by
    intro cA cB w hw himp
    by_cases h : cA = true
    · rw [if_pos h, if_pos (himp h)]
    · rw [if_neg h]
      split_ifs <;> simp [hw]
  have hmono : premedRawScore tA ta ca ≤ premedRawScore tB ta ca := by
    unfold premedRawScore
    have t3 := hterm (premedIndicator3 tA) (premedIndicator3 tB) 0.3 (by norm_num) h3
    have t4 := hterm (premedIndicator4 tA) (premedIndicator4 tB) 0.2 (by norm_num) h4
    have t5 := hterm (premedIndicator5 tA) (premedIndicator5 tB) 0.2 (by norm_num) h5
    exact add_le_add (add_le_add (add_le_add (add_le_add le_rfl le_rfl) t3) t4) t5
  have hscore : ∀ t, (analyze_premeditation t ta ca).premeditation_score =
      min 1 (premedRawScore t ta ca) := by
    intro t; rfl
  refine ⟨?_, ?_, ?_⟩
  · rw [hscore]
    exact le_min (by norm_num) (hraw_nonneg tA)
  · rw [hscore]
    exact min_le_left _ _
  · rw [hscore, hscore]
    exact min_le_min le_rfl hmono

/-- Witness for C8: the empty text has no indicator class, the text
`"他计划并立即拍照取证"` has the three text-driven classes, and the score
ordering follows from the theorem. -/
theorem c8_witness :
    0 ≤ (analyze_premeditation "" premedFixedTA premedFixedCA).premeditation_score ∧
    (analyze_premeditation "" premedFixedTA premedFixedCA).premeditation_score ≤ 1 ∧
    (analyze_premeditation "" premedFixedTA premedFixedCA).premeditation_score ≤
      (analyze_premeditation "他计划并立即拍照取证" premedFixedTA
        premedFixedCA).premeditation_score :=
  c8_premeditation_monotone premedFixedTA premedFixedCA "" "他计划并立即拍照取证"
    (by decide) (by decide) (by decide)

/- ## Claim C3: dependence on the wall clock -/

/-- C3 counterexample: two calls of `reason` with identical text (empty),
identical (empty) evidence list and identical context, but at different
wall-clock instants, return different results — the result's `timestamp`
field records the call time (`datetime.now()`), so the output is not a pure
function of text, evidence and context alone. -/
theorem c3_counterexample :
    reasonE emptyTimeMatches emptyCausalMatches "" [] [] 0 ≠
    reasonE emptyTimeMatches emptyCausalMatches "" [] [] 60 := by
  intro h
  have h2 := congrArg (Except.map (fun r : DeepReasoningResult => r.timestamp)) h
  have e0 : Except.map (fun r : DeepReasoningResult => r.timestamp)
      (reasonE emptyTimeMatches emptyCausalMatches "" [] [] 0) = Except.ok 0 := rfl
  have e60 : Except.map (fun r : DeepReasoningResult => r.timestamp)
      (reasonE emptyTimeMatches emptyCausalMatches "" [] [] 60) = Except.ok 60 := rfl
  rw [e0, e60] at h2
  simp only [Except.ok.injEq] at h2
  exact absurd h2 (by decide)

/-- C3 amended: `reason` keeps no state between invocations — modelled with
the wall-clock instant as an explicit argument it is a plain function, so
two calls with identical text, evidences, context AND call time agree — but
its output does depend on the call time: the result's `timestamp` field
always equals the call time, and the reference date used to resolve relative
time expressions is independent of the call time exactly when the text
contains an absolute year-month-day expression. -/
theorem c3_amended_now_dependence :
    (∀ (tm : List (List String)) (cm : List (List (List String))) (text : String)
      (ev : List Evidence) (ctx : List (String × String)) (now : Int),
      Except.map (fun r : DeepReasoningResult => r.timestamp)
        (reasonE tm cm text ev ctx now) =
      Except.map (fun _ : DeepReasoningResult => now)
        (reasonE tm cm text ev ctx now)) ∧
    (∀ (text eventContext : String) (now1 now2 : Int),
      (searchYMDcn text.toList).isSome = true →
      determine_reference_date text eventContext now1 =
        determine_reference_date text eventContext now2) := by
  constructor
  · intro tm cm text ev ctx now
    unfold reasonE
    cases h1 : analyze_time_seriesD tm text now with
    | error e => simp [h1, Except.map, Except.bind, Bind.bind]
    | ok ta =>
      cases h2 : analyze_logicD tm cm text ev now with
      | error e => simp [h1, h2, Except.map, Except.bind, Bind.bind]
      | ok la => simp [h1, h2, Except.map, Except.bind, Bind.bind, pure, Except.pure]
  · intro text ec now1 now2 hsome
    unfold determine_reference_date
    cases hs : searchYMDcn text.toList with
    | none => rw [hs] at hsome; simp at hsome
    | some v => rfl

/-- Witness for C3's amended statement: the timestamp projection at call
time 7, and the reference-date independence on a text with an absolute
date. -/
theorem c3_witness :
    Except.map (fun r : DeepReasoningResult => r.timestamp)
      (reasonE emptyTimeMatches emptyCausalMatches "" [] [] 7) =
    Except.map (fun _ : DeepReasoningResult => (7 : Int))
      (reasonE emptyTimeMatches emptyCausalMatches "" [] [] 7) ∧
    (searchYMDcn "2024年5月1日".toList).isSome = true ∧
    determine_reference_date "2024年5月1日" "" 0 =
      determine_reference_date "2024年5月1日" "" 999 :=
  ⟨c3_amended_now_dependence.1 emptyTimeMatches emptyCausalMatches "" [] [] 7,
   by decide,
   c3_amended_now_dependence.2 "2024年5月1日" "" 0 999 (by decide)⟩
